import Mathlib

/-!
Verification development for the Skootrs project-bootstrapping engine
(crates `skootrs-model` and `skootrs-lib`).

The Rust services are shallowly embedded:
* pure data types and their string encodings are translated directly from
  `skootrs-model/src/skootrs/{mod.rs, facet.rs}`;
* effectful services (`skootrs-lib/src/service/*.rs`) are translated into
  functions over an explicit oracle (`World`) supplying the outcomes of
  network calls, subprocess spawns and template rendering, an explicit
  file-system state, and an event trace; Rust `panic!`-family aborts
  (`todo!`, `unimplemented!`, `unreachable!`, `expect`, out-of-bounds
  indexing) are a distinct `RunResult.panicked` outcome, kept apart from
  `Result::Err` returns.
-/

/-- Error type: `SkootError` is `Box<dyn Error + Send + Sync>` in the source;
we keep only the rendered message. -/
abbrev SkootError := String

/-- Outcome of running a piece of Rust code: normal return, `Err` return, or
a process abort via the `panic!` family (`todo!`, `unimplemented!`,
`unreachable!`, `expect`, slice indexing out of bounds). -/
inductive RunResult (α : Type) where
  | ok : α → RunResult α
  | err : SkootError → RunResult α
  | panicked : String → RunResult α
deriving DecidableEq, Repr

/-- True exactly on the `Err` outcome (a normal error return, not a crash). -/
def RunResult.isErr {α : Type} : RunResult α → Bool
  | .err _ => true
  | _ => false

/-- True exactly on the `panicked` outcome. -/
def RunResult.isPanic {α : Type} : RunResult α → Bool
  | .panicked _ => true
  | _ => false

/-- Whether `pat` occurs contiguously in a list, scanning left to right. -/
def listOccurs (pat : List Char) : List Char → Bool
  | [] => pat.isEmpty
  | x :: xs => pat.isPrefixOf (x :: xs) || listOccurs pat xs

/-- Substring containment, the model of Rust `str::contains` for a literal
pattern: the pattern's characters occur contiguously in the string. -/
def strContains (s pat : String) : Bool :=
  listOccurs pat.data s.data

/-! ## Data model (`skootrs-model/src/skootrs/mod.rs`, `facet.rs`) -/

/-- The closed enumeration of facet types (`SupportedFacetType`). -/
inductive SupportedFacetType where
  | Readme
  | SecurityInsights
  | SLSABuild
  | SBOMGenerator
  | License
  | StaticCodeAnalysis
  | Gitignore
  | BranchProtection
  | CodeReview
  | DependencyUpdateTool
  | Fuzzing
  | PublishPackages
  | PinnedDependencies
  | SAST
  | SecurityPolicy
  | VulnerabilityScanner
  | GUACForwardingConfig
  | Allstar
  | Scorecard
  | DefaultSourceCode
  | VulnerabilityReporting
  | Other
deriving DecidableEq, Repr

/-- The `Display`/`Debug` rendering of a facet type: the variant name
(`impl fmt::Display for SupportedFacetType` delegates to `Debug`). -/
def SupportedFacetType.toStr : SupportedFacetType → String
  | .Readme => "Readme"
  | .SecurityInsights => "SecurityInsights"
  | .SLSABuild => "SLSABuild"
  | .SBOMGenerator => "SBOMGenerator"
  | .License => "License"
  | .StaticCodeAnalysis => "StaticCodeAnalysis"
  | .Gitignore => "Gitignore"
  | .BranchProtection => "BranchProtection"
  | .CodeReview => "CodeReview"
  | .DependencyUpdateTool => "DependencyUpdateTool"
  | .Fuzzing => "Fuzzing"
  | .PublishPackages => "PublishPackages"
  | .PinnedDependencies => "PinnedDependencies"
  | .SAST => "SAST"
  | .SecurityPolicy => "SecurityPolicy"
  | .VulnerabilityScanner => "VulnerabilityScanner"
  | .GUACForwardingConfig => "GUACForwardingConfig"
  | .Allstar => "Allstar"
  | .Scorecard => "Scorecard"
  | .DefaultSourceCode => "DefaultSourceCode"
  | .VulnerabilityReporting => "VulnerabilityReporting"
  | .Other => "Other"

/-- The `strum::EnumString` parser for `SupportedFacetType`: exact match on
the variant name, every other string is an error. -/
def SupportedFacetType.fromStr (s : String) : Except SkootError SupportedFacetType :=
  if s = "Readme" then .ok .Readme
  else if s = "SecurityInsights" then .ok .SecurityInsights
  else if s = "SLSABuild" then .ok .SLSABuild
  else if s = "SBOMGenerator" then .ok .SBOMGenerator
  else if s = "License" then .ok .License
  else if s = "StaticCodeAnalysis" then .ok .StaticCodeAnalysis
  else if s = "Gitignore" then .ok .Gitignore
  else if s = "BranchProtection" then .ok .BranchProtection
  else if s = "CodeReview" then .ok .CodeReview
  else if s = "DependencyUpdateTool" then .ok .DependencyUpdateTool
  else if s = "Fuzzing" then .ok .Fuzzing
  else if s = "PublishPackages" then .ok .PublishPackages
  else if s = "PinnedDependencies" then .ok .PinnedDependencies
  else if s = "SAST" then .ok .SAST
  else if s = "SecurityPolicy" then .ok .SecurityPolicy
  else if s = "VulnerabilityScanner" then .ok .VulnerabilityScanner
  else if s = "GUACForwardingConfig" then .ok .GUACForwardingConfig
  else if s = "Allstar" then .ok .Allstar
  else if s = "Scorecard" then .ok .Scorecard
  else if s = "DefaultSourceCode" then .ok .DefaultSourceCode
  else if s = "VulnerabilityReporting" then .ok .VulnerabilityReporting
  else if s = "Other" then .ok .Other
  else .error "Matching variant not found"

/-- A Github user tag: a repo belongs either to a user or an organization
(`GithubUser`). -/
inductive GithubUser where
  | User : String → GithubUser
  | Organization : String → GithubUser
deriving DecidableEq, Repr

/-- Name of the user or organization (`GithubUser::get_name`). -/
def GithubUser.get_name : GithubUser → String
  | .User x => x
  | .Organization x => x

/-- An initialized Github repository (`InitializedGithubRepo`). -/
structure InitializedGithubRepo where
  name : String
  organization : GithubUser
deriving DecidableEq, Repr

/-- Host URL of github (`InitializedGithubRepo::host_url`). -/
def InitializedGithubRepo.host_url (_ : InitializedGithubRepo) : String :=
  "https://github.com"

/-- Full URL of the github repo (`InitializedGithubRepo::full_url`):
`host_url/owner/name`. -/
def InitializedGithubRepo.full_url (r : InitializedGithubRepo) : String :=
  r.host_url ++ "/" ++ r.organization.get_name ++ "/" ++ r.name

/-- An initialized repository, tagged by forge (`InitializedRepo`). -/
inductive InitializedRepo where
  | Github : InitializedGithubRepo → InitializedRepo
deriving DecidableEq, Repr

/-- Full URL of an initialized repo (`InitializedRepo::full_url`). -/
def InitializedRepo.full_url : InitializedRepo → String
  | .Github x => x.full_url

/-- An initialized Go module (`InitializedGo`). -/
structure InitializedGo where
  name : String
  host : String
deriving DecidableEq, Repr

/-- Module string in the format `host/name` (`InitializedGo::module`). -/
def InitializedGo.module (g : InitializedGo) : String :=
  g.host ++ "/" ++ g.name

/-- An initialized Maven project (`InitializedMaven`). -/
structure InitializedMaven where
  group_id : String
  artifact_id : String
deriving DecidableEq, Repr

/-- An initialized ecosystem, tagged by variant (`InitializedEcosystem`). -/
inductive InitializedEcosystem where
  | Go : InitializedGo → InitializedEcosystem
  | Maven : InitializedMaven → InitializedEcosystem
deriving DecidableEq, Repr

/-- A local working copy of source code (`InitializedSource`). -/
structure InitializedSource where
  path : String
deriving DecidableEq, Repr

/-- Parameters of the Go ecosystem (`GoParams`). -/
structure GoParams where
  name : String
  host : String
deriving DecidableEq, Repr

/-- Module string `host/name` (`GoParams::module`). -/
def GoParams.module (g : GoParams) : String :=
  g.host ++ "/" ++ g.name

/-- Parameters of the Maven ecosystem (`MavenParams`). -/
structure MavenParams where
  group_id : String
  artifact_id : String
deriving DecidableEq, Repr

/-- Ecosystem initialization parameters (`EcosystemInitializeParams`). -/
inductive EcosystemInitializeParams where
  | Go : GoParams → EcosystemInitializeParams
  | Maven : MavenParams → EcosystemInitializeParams
deriving DecidableEq, Repr

/-- Parameters for creating a Github repository (`GithubRepoParams`). -/
structure GithubRepoParams where
  name : String
  description : String
  organization : GithubUser
deriving DecidableEq, Repr

/-- Repo creation parameters, tagged by forge (`RepoCreateParams`). -/
inductive RepoCreateParams where
  | Github : GithubRepoParams → RepoCreateParams
deriving DecidableEq, Repr

/-- Parameters for initializing a source working copy
(`SourceInitializeParams`). -/
structure SourceInitializeParams where
  parent_path : String
deriving DecidableEq, Repr

/-- Parameters for creating a whole project (`ProjectCreateParams`). -/
structure ProjectCreateParams where
  name : String
  repo_params : RepoCreateParams
  ecosystem_params : EcosystemInitializeParams
  source_params : SourceInitializeParams
deriving DecidableEq, Repr

/-! ### String encodings (`FacetMapKey`, `SourceFile`)

Rust's `str::split` is embedded as explicit recursive functions over the
character list of a string, so that the (de)serialization code's behavior
on arbitrary inputs can be reasoned about. -/

/-- Split a character list on every occurrence of the single character `c`:
the model of Rust `value.split(c)` (used with `':'` by
`SourceFile::try_from`). -/
def splitOnChar (c : Char) : List Char → List (List Char)
  | [] => [[]]
  | x :: xs =>
    if x = c then
      [] :: splitOnChar c xs
    else
      match splitOnChar c xs with
      | [] => [[x]]
      | h :: t => (x :: h) :: t

/-- Split a character list on every (leftmost, non-overlapping) occurrence
of the two-character separator `": "`: the model of Rust
`value.split(": ")` used by `FacetMapKey::try_from`. -/
def splitOnColonSpace : List Char → List (List Char)
  | [] => [[]]
  | [x] => [[x]]
  | x :: y :: rest =>
    if x = ':' ∧ y = ' ' then
      [] :: splitOnColonSpace rest
    else
      match splitOnColonSpace (y :: rest) with
      | [] => [[x]]
      | h :: t => (x :: h) :: t

/-- Whether the separator `": "` occurs in a character list. -/
def hasColonSpace : List Char → Bool
  | [] => false
  | [_] => false
  | x :: y :: rest => (decide (x = ':' ∧ y = ' ')) || hasColonSpace (y :: rest)

/-- A key of a project's facet map (`FacetMapKey`): by facet name or by
facet type. -/
inductive FacetMapKey where
  | Name : String → FacetMapKey
  | Type : SupportedFacetType → FacetMapKey
deriving DecidableEq, Repr

/-- Serialization of a facet map key (`impl From<FacetMapKey> for String`):
`"Name: <string>"` or `"Type: <facet>"`. -/
def FacetMapKey.toStr : FacetMapKey → String
  | .Name x => "Name: " ++ x
  | .Type x => "Type: " ++ x.toStr

/-- Deserialization of a facet map key
(`impl TryFrom<String> for FacetMapKey`): split the string on `": "`,
require exactly two parts, and dispatch on the first part. -/
def FacetMapKey.tryFromString (value : String) : Except SkootError FacetMapKey :=
  match splitOnColonSpace value.data with
  | [a, b] =>
    if a = "Name".data then .ok (.Name (String.mk b))
    else if a = "Type".data then
      match SupportedFacetType.fromStr (String.mk b) with
      | .ok t => .ok (.Type t)
      | .error e => .error e
    else .error "Invalid facet map key"
  | _ => .error "Invalid facet map key"

/-- A tracked source file (`SourceFile`): name, path and content hash. -/
structure SourceFile where
  name : String
  path : String
  hash : String
deriving DecidableEq, Repr

/-- Serialization of a source file (`impl From<SourceFile> for String`):
`"name:path:hash"`. -/
def SourceFile.toStr (sf : SourceFile) : String :=
  sf.name ++ ":" ++ sf.path ++ ":" ++ sf.hash

/-- Deserialization of a source file (`impl TryFrom<String> for SourceFile`):
split on `':'` and require exactly three parts. -/
def SourceFile.tryFromString (value : String) : Except String SourceFile :=
  match splitOnChar ':' value.data with
  | [n, p, h] => .ok { name := String.mk n, path := String.mk p, hash := String.mk h }
  | _ => .error ("Invalid source file string: " ++ value)

/-! ## Output driver (`skootrs-lib/src/service/output.rs`) -/

/-- The output type of a release asset, as used by
`GithubReleaseHandler::get_type`. The catch-all variant carrying a string is
named `Unknown` in `output.rs`; the spec calls the same catch-all
`Custom(string)`. -/
inductive ProjectOutputType where
  | SBOM
  | InToto
  | Unknown : String → ProjectOutputType
deriving DecidableEq, Repr

/-- A release asset as far as classification is concerned: its name and its
URL (`octocrab::models::repos::Asset`; only these two fields are read by
`get_type`). -/
structure Asset where
  name : String
  url : String
deriving DecidableEq, Repr

/-- Classification of a release asset (`GithubReleaseHandler::get_type`):
the Rust `match` guards are tried in order `.spdx.`, `.cdx.`, `.intoto.`,
falling through to `Unknown("Unknown")`. -/
def GithubReleaseHandler.get_type (asset : Asset) : ProjectOutputType :=
  if strContains asset.name ".spdx." then .SBOM
  else if strContains asset.name ".cdx." then .SBOM
  else if strContains asset.name ".intoto." then .InToto
  else .Unknown "Unknown"

/-! ## Helper lemmas on strings and splitting -/

/-- Data of an appended string is the appended data. -/
theorem strData_append (s t : String) : (s ++ t).data = s.data ++ t.data := by
  cases s with
  | mk d =>
    cases t with
    | mk e => rfl

/-- Rebuilding a string from its own data is the identity. -/
theorem strMk_data (s : String) : String.mk s.data = s := by
  cases s with
  | mk d => rfl

/-- Appending to a fixed string on the left is injective. -/
theorem strAppend_left_cancel {s x y : String} (h : s ++ x = s ++ y) : x = y := by
  have hd : s.data ++ x.data = s.data ++ y.data := by
    have := congrArg String.data h
    simpa [strData_append] using this
  have hxy : x.data = y.data := List.append_cancel_left hd
  calc x = String.mk x.data := (strMk_data x).symm
    _ = String.mk y.data := by rw [hxy]
    _ = y := strMk_data y

/-- The single-character splitter never returns an empty list of parts. -/
theorem splitOnChar_ne_nil (c : Char) (l : List Char) : splitOnChar c l ≠ [] := by
  induction l with
  | nil => simp [splitOnChar]
  | cons x xs ih =>
    by_cases hx : x = c
    · simp [splitOnChar, hx]
    · simp only [splitOnChar, hx, if_false]
      cases h : splitOnChar c xs with
      | nil => exact absurd h ih
      | cons a b => simp

/-- Splitting a list free of the separator character yields a single part. -/
theorem splitOnChar_not_mem {c : Char} {l : List Char} (h : c ∉ l) :
    splitOnChar c l = [l] := by
  induction l with
  | nil => rfl
  | cons x xs ih =>
    have hx : ¬(x = c) := fun he => h (he ▸ List.mem_cons_self x xs)
    have hxs : c ∉ xs := fun hm => h (List.mem_cons_of_mem x hm)
    simp [splitOnChar, hx, ih hxs]

/-- Splitting at the first separator occurrence after a separator-free
run peels off that run as the first part. -/
theorem splitOnChar_append {c : Char} {l₁ : List Char} (l₂ : List Char)
    (h : c ∉ l₁) : splitOnChar c (l₁ ++ c :: l₂) = l₁ :: splitOnChar c l₂ := by
  induction l₁ with
  | nil => simp [splitOnChar]
  | cons x xs ih =>
    have hx : ¬(x = c) := fun he => h (he ▸ List.mem_cons_self x xs)
    have hxs : c ∉ xs := fun hm => h (List.mem_cons_of_mem x hm)
    simp only [List.cons_append, splitOnChar, hx, if_false]
    rw [show xs.append (c :: l₂) = xs ++ c :: l₂ from rfl, ih hxs]

/-- The two-character splitter never returns an empty list of parts. -/
theorem splitOnColonSpace_ne_nil (l : List Char) : splitOnColonSpace l ≠ [] := by
  induction l with
  | nil => simp [splitOnColonSpace]
  | cons x xs ih =>
    cases xs with
    | nil => simp [splitOnColonSpace]
    | cons y rest =>
      by_cases hxy : x = ':' ∧ y = ' '
      · simp [splitOnColonSpace, hxy]
      · simp only [splitOnColonSpace, hxy, if_false]
        cases h : splitOnColonSpace (y :: rest) with
        | nil => exact absurd h ih
        | cons a b => simp

/-- Splitting a list free of the `": "` separator yields a single part. -/
theorem splitOnColonSpace_no_sep (l : List Char) :
    hasColonSpace l = false → splitOnColonSpace l = [l] := by
  induction l with
  | nil => intro _; rfl
  | cons x xs ih =>
    intro h
    cases xs with
    | nil => rfl
    | cons y rest =>
      have hparts : (decide (x = ':' ∧ y = ' ') || hasColonSpace (y :: rest)) = false := h
      have hxy : ¬(x = ':' ∧ y = ' ') := by
        have := (Bool.or_eq_false_iff.mp hparts).1
        exact of_decide_eq_false this
      have hrest : hasColonSpace (y :: rest) = false :=
        (Bool.or_eq_false_iff.mp hparts).2
      simp only [splitOnColonSpace, hxy, if_false]
      rw [ih hrest]

/-- Peeling the literal prefix `"Name: "` off the two-character splitter. -/
theorem splitOnColonSpace_name_prefix (l : List Char) :
    splitOnColonSpace ("Name: ".data ++ l) = "Name".data :: splitOnColonSpace l := by
  cases h : splitOnColonSpace l with
  | nil => exact absurd h (splitOnColonSpace_ne_nil l)
  | cons a b => simp [splitOnColonSpace, h]

/-- Peeling the literal prefix `"Type: "` off the two-character splitter. -/
theorem splitOnColonSpace_type_prefix (l : List Char) :
    splitOnColonSpace ("Type: ".data ++ l) = "Type".data :: splitOnColonSpace l := by
  cases h : splitOnColonSpace l with
  | nil => exact absurd h (splitOnColonSpace_ne_nil l)
  | cons a b => simp [splitOnColonSpace, h]

/-! ## Claim C5: string-encoding round-trips -/

/-- Decidable equality on `Except`, used to evaluate (de)serializers on
concrete inputs. -/
instance {ε α : Type} [DecidableEq ε] [DecidableEq α] : DecidableEq (Except ε α) := fun x y =>
  match x, y with
  | .ok a, .ok b =>
    if h : a = b then .isTrue (by rw [h])
    else .isFalse (fun he => h (Except.ok.inj he))
  | .ok _, .error _ => .isFalse (fun he => by injection he)
  | .error _, .ok _ => .isFalse (fun he => by injection he)
  | .error e, .error f =>
    if h : e = f then .isTrue (by rw [h])
    else .isFalse (fun he => h (Except.error.inj he))

/-- C5 counterexample: the claim asserts the `"name:path:hash"` encoding
round-trips even when the name contains arbitrary strings; for the
`SourceFile` with name `"a:b"`, serialization yields `"a:b:p:h"`, which
splits into four parts and is rejected on deserialization. -/
theorem c5_roundtrip_counterexample :
    SourceFile.tryFromString
        (SourceFile.toStr { name := "a:b", path := "p", hash := "h" })
      ≠ .ok { name := "a:b", path := "p", hash := "h" } := by
  decide

/-- C5 (amended): `deserialize ∘ serialize` is the identity on the string
encodings provided the encoded fields are free of the separators: a
`SourceFile` round-trips when none of its fields contains `':'`; a
`FacetMapKey::Type` key always round-trips; a `FacetMapKey::Name` key
round-trips when the name does not contain the substring `": "`. -/
theorem c5_roundtrip_amended :
    (∀ sf : SourceFile, ':' ∉ sf.name.data → ':' ∉ sf.path.data → ':' ∉ sf.hash.data →
        SourceFile.tryFromString sf.toStr = .ok sf)
    ∧ (∀ t : SupportedFacetType,
        FacetMapKey.tryFromString (FacetMapKey.Type t).toStr = .ok (.Type t))
    ∧ (∀ s : String, hasColonSpace s.data = false →
        FacetMapKey.tryFromString (FacetMapKey.Name s).toStr = .ok (.Name s)) := by
  refine ⟨?_, ?_, ?_⟩
  · intro sf h1 h2 h3
    unfold SourceFile.toStr SourceFile.tryFromString
    have hdata :
        (sf.name ++ ":" ++ sf.path ++ ":" ++ sf.hash).data
          = sf.name.data ++ ':' :: (sf.path.data ++ ':' :: sf.hash.data) := by
      simp [strData_append]
    rw [hdata, splitOnChar_append _ h1, splitOnChar_append _ h2,
      splitOnChar_not_mem h3]
  · intro t
    cases t <;> rfl
  · intro s h
    unfold FacetMapKey.toStr FacetMapKey.tryFromString
    rw [strData_append, splitOnColonSpace_name_prefix, splitOnColonSpace_no_sep _ h]
    simp [strMk_data]

/-- C5 witness: the amended round-trip evaluated at concrete separator-free
inputs. -/
theorem c5_roundtrip_amended_witness :
    (SourceFile.tryFromString
        (SourceFile.toStr { name := "README.md", path := "./", hash := "abc123" })
      = .ok { name := "README.md", path := "./", hash := "abc123" })
    ∧ (FacetMapKey.tryFromString (FacetMapKey.Type .Readme).toStr = .ok (.Type .Readme))
    ∧ (FacetMapKey.tryFromString (FacetMapKey.Name "myfacet").toStr = .ok (.Name "myfacet")) :=
  ⟨c5_roundtrip_amended.1 { name := "README.md", path := "./", hash := "abc123" }
      (by decide) (by decide) (by decide),
    c5_roundtrip_amended.2.1 .Readme,
    c5_roundtrip_amended.2.2 "myfacet" (by decide)⟩

/-! ## Claim C9: release-asset classification -/

/-- C9: `GithubReleaseHandler::get_type` classifies a release asset by its
name: `.spdx.` or `.cdx.` gives SBOM, otherwise `.intoto.` gives InToto,
otherwise the catch-all `Unknown("Unknown")` (named `Custom("Unknown")` in
the spec); when a name matches both `.spdx.` and `.intoto.`, the SBOM
classification wins because the `.spdx.` guard is tried first. -/
theorem c9_output_classification (a : Asset) :
    ((strContains a.name ".spdx." || strContains a.name ".cdx.") = true →
        GithubReleaseHandler.get_type a = .SBOM)
    ∧ (strContains a.name ".spdx." = false → strContains a.name ".cdx." = false →
        strContains a.name ".intoto." = true →
        GithubReleaseHandler.get_type a = .InToto)
    ∧ (strContains a.name ".spdx." = false → strContains a.name ".cdx." = false →
        strContains a.name ".intoto." = false →
        GithubReleaseHandler.get_type a = .Unknown "Unknown")
    ∧ (strContains a.name ".spdx." = true → strContains a.name ".intoto." = true →
        GithubReleaseHandler.get_type a = .SBOM) := by
  refine ⟨?_, ?_, ?_, ?_⟩
  · intro h
    rcases Bool.or_eq_true_iff.mp h with h' | h' <;>
      simp [GithubReleaseHandler.get_type, h']
  · intro h1 h2 h3
    simp [GithubReleaseHandler.get_type, h1, h2, h3]
  · intro h1 h2 h3
    simp [GithubReleaseHandler.get_type, h1, h2, h3]
  · intro h1 _
    simp [GithubReleaseHandler.get_type, h1]

/-- C9 witness: classification evaluated on a concrete asset whose name
contains both `.spdx.` and `.intoto.`; SBOM wins. -/
theorem c9_output_classification_witness :
    GithubReleaseHandler.get_type { name := "app.spdx.intoto.json", url := "u" } = .SBOM :=
  (c9_output_classification { name := "app.spdx.intoto.json", url := "u" }).2.2.2
    (by decide) (by decide)

/-! ## Subprocess model (`std::process::Command`) -/

/-- A subprocess invocation: program, arguments and working directory. -/
structure Cmd where
  program : String
  args : List String
  cwd : String
deriving DecidableEq, Repr

/-- The observable output of a finished subprocess (`std::process::Output`):
`status` is the exit code (`status.success()` is `status == 0`); the raw
stderr bytes are represented by the result of `String::from_utf8` on them —
`some s` when they decode to `s`, `none` when they are not valid UTF-8. -/
structure ProcOutput where
  status : Int
  stdout : String
  stderrUtf8 : Option String
deriving DecidableEq, Repr

/-- A subprocess oracle: the outcome of `Command::output()` for a given
invocation — `.error` exactly when spawning fails (the only case in which
`output()` returns `Err`), otherwise the finished process's output. -/
abbrev ProcRunner := Cmd → Except SkootError ProcOutput

/-! ## Ecosystem driver (`skootrs-lib/src/service/ecosystem.rs`) -/

/-- The `mvn archetype:generate` invocation built by
`LocalMavenEcosystemHandler::initialize`. -/
def mvnGenerateCmd (path : String) (params : MavenParams) : Cmd :=
  { program := "mvn"
    args := ["archetype:generate",
      "-DgroupId=" ++ params.group_id,
      "-DartifactId=" ++ params.artifact_id,
      "-DarchetypeArtifactId=maven-archetype-quickstart",
      "-DinteractiveMode=false"]
    cwd := path }

/-- The `go mod init` invocation built by
`LocalGoEcosystemHandler::initialize`. -/
def goModInitCmd (path : String) (params : GoParams) : Cmd :=
  { program := "go", args := ["mod", "init", params.module], cwd := path }

/-- Maven project initialization (`LocalMavenEcosystemHandler::initialize`):
run `mvn archetype:generate`; `Ok` exactly when the exit status is 0, else a
fixed `io::Error` message `"Failed to run mvn generate"` (the subprocess's
stderr is not read). -/
def LocalMavenEcosystemHandler.initialize (run : ProcRunner) (path : String)
    (params : MavenParams) : Except SkootError Unit :=
  match run (mvnGenerateCmd path params) with
  | .error e => .error e
  | .ok output =>
    if output.status = 0 then .ok ()
    else .error "Failed to run mvn generate"

/-- Go module initialization (`LocalGoEcosystemHandler::initialize`): run
`go mod init <module>`; `Ok` exactly when the exit status is 0, else an
`io::Error` whose message appends the UTF-8 decoded stderr (propagating the
`FromUtf8Error` when stderr is not valid UTF-8). -/
def LocalGoEcosystemHandler.initialize (run : ProcRunner) (path : String)
    (params : GoParams) : Except SkootError Unit :=
  match run (goModInitCmd path params) with
  | .error e => .error e
  | .ok output =>
    if output.status = 0 then .ok ()
    else
      match output.stderrUtf8 with
      | some s => .error ("Failed to run go mod init: " ++ s)
      | none => .error "invalid utf-8 sequence"

/-- Ecosystem dispatch (`LocalEcosystemService::initialize`): run the
variant's handler in the source path, then return the initialized ecosystem
built from the params. -/
def LocalEcosystemService.initialize (run : ProcRunner)
    (params : EcosystemInitializeParams) (source : InitializedSource) :
    Except SkootError InitializedEcosystem :=
  match params with
  | .Maven m =>
    match LocalMavenEcosystemHandler.initialize run source.path m with
    | .error e => .error e
    | .ok _ => .ok (.Maven { group_id := m.group_id, artifact_id := m.artifact_id })
  | .Go g =>
    match LocalGoEcosystemHandler.initialize run source.path g with
    | .error e => .error e
    | .ok _ => .ok (.Go { name := g.name, host := g.host })

/-! ## Source driver: commit and push
(`skootrs-lib/src/service/source.rs`) -/

/-- Commit-and-push (`LocalSourceService::commit_and_push_changes`): spawn
`git add .`, `git commit -m <message>`, `git push` in the working copy. Each
call is `Command::output()?` with the output bound to `_output` and never
inspected, so only a failure to spawn propagates; the exit status of each
git command is discarded. -/
def LocalSourceService.commit_and_push_changes (run : ProcRunner)
    (source : InitializedSource) (message : String) : Except SkootError Unit :=
  match run { program := "git", args := ["add", "."], cwd := source.path } with
  | .error e => .error e
  | .ok _ =>
    match run { program := "git", args := ["commit", "-m", message], cwd := source.path } with
    | .error e => .error e
    | .ok _ =>
      match run { program := "git", args := ["push"], cwd := source.path } with
      | .error e => .error e
      | .ok _ => .ok ()

/-- A subprocess world in which every spawned process runs but exits with
status 1 and a diagnostic on stderr. -/
def exitOneRunner : ProcRunner := fun _ =>
  .ok { status := 1, stdout := "", stderrUtf8 := some "fatal: not a git repository" }

/-! ## Claim C3: commit-and-push error propagation -/

/-- C3: in a world where every git subprocess exits with status 1 (for
example `git commit` failing), `commit_and_push_changes` still returns
`Ok(())` — the exit statuses of the three git sub-operations are discarded,
contradicting the documented contract that the operation errors when the
changes cannot be committed and pushed. -/
theorem c3_commit_and_push_ignores_exit_status :
    LocalSourceService.commit_and_push_changes exitOneRunner
        { path := "/tmp/demo" } "Initialized project" = .ok ()
    ∧ exitOneRunner
        { program := "git", args := ["commit", "-m", "Initialized project"],
          cwd := "/tmp/demo" }
      = .ok { status := 1, stdout := "", stderrUtf8 := some "fatal: not a git repository" } :=
  ⟨rfl, rfl⟩

/-! ## Claim C7: ecosystem initialization success and stderr reporting -/

/-- A subprocess world where every process exits 1 with stderr `"boom"`. -/
def stderrBoomRunner : ProcRunner := fun _ =>
  .ok { status := 1, stdout := "", stderrUtf8 := some "boom" }

/-- A subprocess world where every process succeeds with empty output. -/
def exitZeroRunner : ProcRunner := fun _ =>
  .ok { status := 0, stdout := "", stderrUtf8 := some "" }

/-- C7 counterexample: the claim asserts that for both ecosystem variants a
failing subprocess's stderr is included in the error message; for Maven the
returned error is the fixed string `"Failed to run mvn generate"`, which
does not contain the subprocess's stderr `"boom"`. -/
theorem c7_maven_stderr_counterexample :
    LocalMavenEcosystemHandler.initialize stderrBoomRunner "/tmp/x"
        { group_id := "com.example", artifact_id := "my-project" }
      = .error "Failed to run mvn generate"
    ∧ strContains "Failed to run mvn generate" "boom" = false :=
  ⟨rfl, by decide⟩

/-- C7 (amended): for both ecosystem variants, initialization succeeds
exactly when the spawned subprocess exits with status 0; on failure the Go
handler's error message includes the decoded stderr, while the Maven
handler returns the fixed message `"Failed to run mvn generate"` without
the stderr. -/
theorem c7_ecosystem_exit_status_amended :
    (∀ (run : ProcRunner) (path : String) (params : MavenParams) (out : ProcOutput),
        run (mvnGenerateCmd path params) = .ok out →
        ( LocalMavenEcosystemHandler.initialize run path params = .ok () ↔ out.status = 0))
    ∧ (∀ (run : ProcRunner) (path : String) (params : GoParams) (out : ProcOutput),
        run (goModInitCmd path params) = .ok out →
        ( LocalGoEcosystemHandler.initialize run path params = .ok () ↔ out.status = 0))
    ∧ (∀ (run : ProcRunner) (path : String) (params : GoParams) (out : ProcOutput)
        (s : String),
        run (goModInitCmd path params) = .ok out → out.status ≠ 0 →
        out.stderrUtf8 = some s →
        LocalGoEcosystemHandler.initialize run path params
          = .error ("Failed to run go mod init: " ++ s))
    ∧ (∀ (run : ProcRunner) (path : String) (params : MavenParams) (out : ProcOutput),
        run (mvnGenerateCmd path params) = .ok out → out.status ≠ 0 →
        LocalMavenEcosystemHandler.initialize run path params
          = .error "Failed to run mvn generate") := by
  refine ⟨?_, ?_, ?_, ?_⟩
  · intro run path params out hrun
    unfold LocalMavenEcosystemHandler.initialize
    rw [hrun]
    by_cases hs : out.status = 0 <;> simp [hs]
  · intro run path params out hrun
    unfold LocalGoEcosystemHandler.initialize
    rw [hrun]
    by_cases hs : out.status = 0 <;> simp [hs]
    cases he : out.stderrUtf8 <;> simp
  · intro run path params out s hrun hs he
    unfold LocalGoEcosystemHandler.initialize
    rw [hrun]
    simp [hs, he]
  · intro run path params out hrun hs
    unfold LocalMavenEcosystemHandler.initialize
    rw [hrun]
    simp [hs]

/-- C7 witness: the amended statement evaluated on concrete worlds — a Go
failure with stderr `"boom"` reports that stderr, and a Maven run with exit
status 0 succeeds. -/
theorem c7_ecosystem_exit_status_amended_witness :
    LocalGoEcosystemHandler.initialize stderrBoomRunner "/tmp/x"
        { name := "demo", host := "github.com/alice" }
      = .error ("Failed to run go mod init: " ++ "boom")
    ∧ ( LocalMavenEcosystemHandler.initialize exitZeroRunner "/tmp/x"
          { group_id := "com.example", artifact_id := "my-project" }
        = .ok () ↔ (0 : Int) = 0) :=
  ⟨c7_ecosystem_exit_status_amended.2.2.1 stderrBoomRunner "/tmp/x"
      { name := "demo", host := "github.com/alice" }
      { status := 1, stdout := "", stderrUtf8 := some "boom" } "boom"
      rfl (by decide) rfl,
    c7_ecosystem_exit_status_amended.1 exitZeroRunner "/tmp/x"
      { group_id := "com.example", artifact_id := "my-project" }
      { status := 0, stdout := "", stderrUtf8 := some "" } rfl⟩

/-! ## Repo driver: URL-based get (`skootrs-lib/src/service/repo.rs`) -/

/-- The result of `url::Url::parse` as far as `LocalRepoService::get` reads
it: `host_str()` and `path()`. For http(s) URLs the url crate always
produces a path beginning with `/` (for example `https://github.com` parses
with path `/`). -/
structure ParsedUrl where
  hostStr : Option String
  path : String
deriving DecidableEq, Repr

/-- Model of Rust `str::split(c)` at the string level: the parts between
occurrences of the separator character. -/
def strSplitOnChar (c : Char) (s : String) : List String :=
  (splitOnChar c s.data).map String.mk

/-- URL-based repo lookup (`LocalRepoService::get`) starting from the parsed
URL: require host `github.com`, split the path on `'/'`, index `parts[1]`
and `parts[2]` unconditionally (out-of-bounds indexing is a Rust panic),
then ask the forge whether the repo exists (`repoExists` is the outcome of
the octocrab GET). -/
def LocalRepoService.get (repoExists : Bool) (u : ParsedUrl) : RunResult InitializedRepo :=
  match u.hostStr with
  | some h =>
    if h = "github.com" then
      let parts := strSplitOnChar '/' u.path
      match parts.get? 1 with
      | none => .panicked "index out of bounds"
      | some organization =>
        match parts.get? 2 with
        | none => .panicked "index out of bounds"
        | some name =>
          if repoExists then
            .ok (.Github { name := name, organization := .User organization })
          else .err "Repo does not exist"
    else .err "Unsupported repo host"
  | none => .err "Invalid repo URL"

/-! ## Claim C10: totality of the URL-based get -/

/-- C10 counterexample: the claim asserts `get` never panics, including on
URLs whose path has fewer than two segments; for `https://github.com/`
(parsed host `github.com`, path `/`) the path splits into two parts and the
unchecked `parts[2]` indexing panics. -/
theorem c10_get_counterexample :
    LocalRepoService.get true { hostStr := some "github.com", path := "/" }
      = .panicked "index out of bounds" := by
  rfl

/-- C10 (amended): for a parsed URL with host `github.com`, `get` returns a
repo or an error without panicking exactly when splitting the path on `'/'`
yields at least three parts (that is, the path names at least two
segments); with fewer parts the unchecked indexing panics; a parsed URL
with any other host yields the error `"Unsupported repo host"`. -/
theorem c10_get_amended :
    (∀ (repoExists : Bool) (u : ParsedUrl), u.hostStr = some "github.com" →
        3 ≤ (strSplitOnChar '/' u.path).length →
        (LocalRepoService.get repoExists u).isPanic = false)
    ∧ (∀ (repoExists : Bool) (u : ParsedUrl), u.hostStr = some "github.com" →
        (strSplitOnChar '/' u.path).length < 3 →
        (LocalRepoService.get repoExists u).isPanic = true)
    ∧ (∀ (repoExists : Bool) (u : ParsedUrl) (h : String), u.hostStr = some h →
        h ≠ "github.com" →
        LocalRepoService.get repoExists u = .err "Unsupported repo host") := by
  refine ⟨?_, ?_, ?_⟩
  · intro repoExists u hhost hlen
    unfold LocalRepoService.get
    rw [hhost]
    simp only [if_pos rfl]
    cases h1 : (strSplitOnChar '/' u.path).get? 1 with
    | none =>
      exfalso
      have := List.get?_eq_none.mp h1
      omega
    | some organization =>
      cases h2 : (strSplitOnChar '/' u.path).get? 2 with
      | none =>
        exfalso
        have := List.get?_eq_none.mp h2
        omega
      | some name =>
        cases repoExists <;> simp [RunResult.isPanic]
  · intro repoExists u hhost hlen
    unfold LocalRepoService.get
    rw [hhost]
    simp only [if_pos rfl]
    cases h1 : (strSplitOnChar '/' u.path).get? 1 with
    | none => simp [RunResult.isPanic]
    | some organization =>
      have h2 : (strSplitOnChar '/' u.path).get? 2 = none :=
        List.get?_eq_none.mpr (by omega)
      rw [h2]
      simp [RunResult.isPanic]
  · intro repoExists u h hhost hne
    unfold LocalRepoService.get
    rw [hhost]
    simp [hne]

/-- C10 witness: the amended statement evaluated at `https://github.com/` (a
panic) and at a two-segment path (no panic). -/
theorem c10_get_amended_witness :
    (LocalRepoService.get true { hostStr := some "github.com", path := "/alice/demo" }).isPanic
      = false
    ∧ (LocalRepoService.get true { hostStr := some "github.com", path := "/" }).isPanic
      = true :=
  ⟨c10_get_amended.1 true { hostStr := some "github.com", path := "/alice/demo" }
      rfl (by decide),
    c10_get_amended.2.1 true { hostStr := some "github.com", path := "/" }
      rfl (by decide)⟩

/-! ## Facet data model (`skootrs-model/src/skootrs/facet.rs`)

The `skootrs-lib` revision in this tree constructs facet values without the
`labels` field present in the `skootrs-model` revision; the embedding
follows the constructing code in `skootrs-lib/src/service/facet.rs`, whose
fields are `source_files`, `facet_type`, `source_files_content` (and
`apis`, `facet_type` for API bundles). -/

/-- The transient content of a source file (`SourceFileContent`). -/
structure SourceFileContent where
  name : String
  path : String
  content : String
deriving DecidableEq, Repr

/-- A source-bundle facet (`SourceBundleFacet`): exactly one of
`source_files` (persisted) and `source_files_content` (fetch result) is
populated at a time. The fetch-result map is kept as an association list. -/
structure SourceBundleFacet where
  source_files : Option (List SourceFile)
  facet_type : SupportedFacetType
  source_files_content : Option (List (SourceFile × String))
deriving DecidableEq, Repr

/-- One API call made by a facet (`APIContent`). -/
structure APIContent where
  name : String
  url : String
  response : String
deriving DecidableEq, Repr

/-- An API-bundle facet (`APIBundleFacet`). -/
structure APIBundleFacet where
  apis : List APIContent
  facet_type : SupportedFacetType
deriving DecidableEq, Repr

/-- An initialized facet (`InitializedFacet`), tagged by variant. -/
inductive InitializedFacet where
  | SourceBundle : SourceBundleFacet → InitializedFacet
  | APIBundle : APIBundleFacet → InitializedFacet
deriving DecidableEq, Repr

/-- Facet type of the inner facet (`InitializedFacet::facet_type`). -/
def InitializedFacet.facet_type : InitializedFacet → SupportedFacetType
  | .SourceBundle f => f.facet_type
  | .APIBundle f => f.facet_type

/-- Parameters shared by all facet creations (`CommonFacetCreateParams`). -/
structure CommonFacetCreateParams where
  project_name : String
  source : InitializedSource
  repo : InitializedRepo
  ecosystem : InitializedEcosystem
deriving DecidableEq, Repr

/-- Parameters for creating a source-bundle facet
(`SourceBundleFacetCreateParams`). -/
structure SourceBundleFacetCreateParams where
  common : CommonFacetCreateParams
  facet_type : SupportedFacetType
deriving DecidableEq, Repr

/-- Parameters for creating an API-bundle facet (`APIBundleFacetParams`). -/
structure APIBundleFacetParams where
  common : CommonFacetCreateParams
  facet_type : SupportedFacetType
deriving DecidableEq, Repr

/-- Parameters for creating one facet (`FacetCreateParams`), mirroring
`InitializedFacet`. -/
inductive FacetCreateParams where
  | SourceBundle : SourceBundleFacetCreateParams → FacetCreateParams
  | APIBundle : APIBundleFacetParams → FacetCreateParams
deriving DecidableEq, Repr

/-- True on the source-bundle variant of facet-create params. -/
def FacetCreateParams.isSourceBundle : FacetCreateParams → Bool
  | .SourceBundle _ => true
  | .APIBundle _ => false

/-- True on the API-bundle variant of facet-create params. -/
def FacetCreateParams.isAPIBundle : FacetCreateParams → Bool
  | .SourceBundle _ => false
  | .APIBundle _ => true

/-- Facet type requested by one facet-create param. -/
def FacetCreateParams.facetTypeOf : FacetCreateParams → SupportedFacetType
  | .SourceBundle p => p.facet_type
  | .APIBundle p => p.facet_type

/-- An ordered set of facet creations (`FacetSetCreateParams`). -/
structure FacetSetCreateParams where
  facets_params : List FacetCreateParams
deriving DecidableEq, Repr

/-- The facet map of a project: Rust `HashMap<FacetMapKey, InitializedFacet>`
modelled as an association list with unique keys, built by sequential
insertion (a later insert with an existing key overwrites its value). -/
abbrev FacetMap := List (FacetMapKey × InitializedFacet)

/-- Insertion into the facet map: overwrite the value when the key is
present, append otherwise (the `HashMap::insert` semantics used by
`collect`). -/
def facetMapInsert (m : FacetMap) (k : FacetMapKey) (v : InitializedFacet) : FacetMap :=
  if m.any (fun kv => kv.1 == k) then
    m.map (fun kv => if kv.1 == k then (k, v) else kv)
  else m ++ [(k, v)]

/-- Collect a list of key-value pairs into a facet map by sequential
insertion, the model of `.collect::<HashMap<_, _>>()`. -/
def facetMapCollect (l : List (FacetMapKey × InitializedFacet)) : FacetMap :=
  l.foldl (fun m kv => facetMapInsert m kv.1 kv.2) []

/-- An initialized project (`InitializedProject`). -/
structure InitializedProject where
  repo : InitializedRepo
  ecosystem : InitializedEcosystem
  source : InitializedSource
  facets : FacetMap
deriving DecidableEq, Repr

/-! ## SECURITY-INSIGHTS schema
(`skootrs_model::security_insights::insights10`)

The schema types are part of this repository but their defining module is
not under the sources provided; the structures below are reconstructed from
the fields written by
`DefaultSourceBundleContentHandler::generate_security_insights_content` and
the spec. Fields that the generator always sets to `None` are typed
`Option String` when their real payload type is never used. Timestamps are
abstract integers. -/

/-- Version tag of the schema. Modelled from the spec: the single value used
is schema version `"1.0.0"` (Rust `SchemaVersion::_100`). -/
inductive SecurityInsightsSchemaVersion where
  | schema100
deriving DecidableEq, Repr

/-- Rendering of the schema version tag. Modelled from the spec:
`header.schemaVersion = "1.0.0"`. -/
def SecurityInsightsSchemaVersion.toStr : SecurityInsightsSchemaVersion → String
  | .schema100 => "1.0.0"

/-- Lifecycle status. Modelled from the spec:
`projectLifecycle.status = Active`. -/
inductive SecurityInsightsLifecycleStatus where
  | active
  | inactive
deriving DecidableEq, Repr

/-- Contribution policy section
(`SecurityInsightsVersion100YamlSchemaContributionPolicy`). -/
structure SecurityInsightsContributionPolicy where
  accepts_automated_pull_requests : Bool
  accepts_pull_requests : Bool
  automated_tools_list : Option String
  code_of_conduct : Option String
  contributing_policy : Option String
deriving DecidableEq, Repr

/-- One SBOM entry
(`SecurityInsightsVersion100YamlSchemaDependenciesSbomItem`). The
`sbom_creation` newtype's `from_str` conversion is modelled as the identity
on the string. -/
structure SecurityInsightsSbomItem where
  sbom_creation : Option String
  sbom_file : Option String
  sbom_format : Option String
  sbom_url : Option String
deriving DecidableEq, Repr

/-- Dependencies section
(`SecurityInsightsVersion100YamlSchemaDependencies`). -/
structure SecurityInsightsDependencies where
  dependencies_lifecycle : Option String
  dependencies_lists : List String
  env_dependencies_policy : Option String
  sbom : Option (List SecurityInsightsSbomItem)
  third_party_packages : Option Bool
deriving DecidableEq, Repr

/-- Header section (`SecurityInsightsVersion100YamlSchemaHeader`). -/
structure SecurityInsightsHeader where
  changelog : Option String
  commit_hash : Option String
  expiration_date : Int
  last_reviewed : Option Int
  last_updated : Option Int
  license : Option String
  project_release : Option String
  project_url : String
  schema_version : SecurityInsightsSchemaVersion
deriving DecidableEq, Repr

/-- Project lifecycle section
(`SecurityInsightsVersion100YamlSchemaProjectLifecycle`). -/
structure SecurityInsightsProjectLifecycle where
  bug_fixes_only : Bool
  core_maintainers : Option String
  release_cycle : Option String
  release_process : Option String
  roadmap : Option String
  status : SecurityInsightsLifecycleStatus
deriving DecidableEq, Repr

/-- Vulnerability reporting section
(`SecurityInsightsVersion100YamlSchemaVulnerabilityReporting`). -/
structure SecurityInsightsVulnerabilityReporting where
  accepts_vulnerability_reports : Bool
  bug_bounty_available : Option Bool
  bug_bounty_url : Option String
  comment : Option String
  email_contact : Option String
  in_scope : Option String
  out_scope : Option String
  pgp_key : Option String
  security_policy : Option String
deriving DecidableEq, Repr

/-- The SECURITY-INSIGHTS 1.0.0 document
(`SecurityInsightsVersion100YamlSchema`). -/
structure SecurityInsights where
  contribution_policy : SecurityInsightsContributionPolicy
  dependencies : Option SecurityInsightsDependencies
  distribution_points : List String
  documentation : Option String
  header : SecurityInsightsHeader
  project_lifecycle : SecurityInsightsProjectLifecycle
  security_artifacts : Option String
  security_assessments : Option String
  security_contacts : List String
  security_testing : List String
  vulnerability_reporting : SecurityInsightsVulnerabilityReporting
deriving DecidableEq, Repr

/-! ## Effect model: file system, event trace, oracle world

The services perform IO (network calls, subprocess spawns, file writes).
They are embedded as functions over an explicit file-system state plus an
oracle (`World`) choosing the outcome of every external interaction, and
they record an event trace. Concurrent fan-out (`try_join_all` in
`initialize_all`) is linearized in plan order; the claims proved below
concern only inter-phase ordering, which is enforced by `await`s in the
orchestrator and is invariant under intra-phase interleaving. -/

/-- The local file system: full path to file content, as an association
list where the most recent write shadows earlier entries. -/
abbrev FS := List (String × String)

/-- Read a file from the file system. -/
def fsRead (fs : FS) (p : String) : Option String :=
  fs.lookup p

/-- Write a file, shadowing any earlier content at the same path. -/
def fsWrite (fs : FS) (p content : String) : FS :=
  (p, content) :: fs

/-- One externally visible event of a pipeline run. -/
inductive Event where
  | repoCreate (endpoint : String)
  | sourceClone (url : String)
  | ecosystemInit
  | fileWrite (path name : String)
  | fileHash (path name : String)
  | commitPush
  | apiCall (url : String)
deriving DecidableEq, Repr

/-- Pipeline phase of an event: repository/source/ecosystem setup (0), facet
file writes and hashes (1), commit-and-push (2), forge API facet calls (3). -/
def Event.phase : Event → Nat
  | .repoCreate _ => 0
  | .sourceClone _ => 0
  | .ecosystemInit => 0
  | .fileWrite _ _ => 1
  | .fileHash _ _ => 1
  | .commitPush => 2
  | .apiCall _ => 3

/-- Result of one embedded computation: the emitted trace, the file system
after it, and its outcome. -/
structure Step (α : Type) where
  trace : List Event
  fs : FS
  result : RunResult α

/-- An embedded effectful computation. -/
def M (α : Type) : Type := FS → Step α

/-- Return. -/
def mPure {α : Type} (a : α) : M α := fun fs => ⟨[], fs, .ok a⟩

/-- Sequencing: on a normal return continue, on `Err` or a panic stop,
keeping the trace and file system produced so far. -/
def mBind {α β : Type} (m : M α) (f : α → M β) : M β := fun fs =>
  match m fs with
  | ⟨t, fs1, .ok a⟩ =>
    match f a fs1 with
    | ⟨t2, fs2, r2⟩ => ⟨t ++ t2, fs2, r2⟩
  | ⟨t, fs1, .err e⟩ => ⟨t, fs1, .err e⟩
  | ⟨t, fs1, .panicked msg⟩ => ⟨t, fs1, .panicked msg⟩

/-- Lift a pure outcome (no events, no file-system change). -/
def mOfRunResult {α : Type} (r : RunResult α) : M α := fun fs => ⟨[], fs, r⟩

/-- Lift a Rust `Result` (the `?` operator). -/
def mOfExcept {α : Type} (r : Except SkootError α) : M α := fun fs =>
  ⟨[], fs, match r with | .ok a => .ok a | .error e => .err e⟩

/-- Abort with a panic (`todo!` / `unimplemented!` / `expect`). -/
def mPanicked {α : Type} (msg : String) : M α := fun fs => ⟨[], fs, .panicked msg⟩

/-- The identifier and parameters of one askama template render. Template
file contents are data of this repository outside the provided sources (and
explicitly out of scope in the spec); each render is resolved by the
`World` oracle. -/
inductive Template where
  | readme (project_name : String)
  | license (project_name : String) (date : Int)
  | securityPrerelease
  | scorecard
  | codeql
  | goGitignore
  | goReleases
  | dockerfileGoreleaser (project_name : String)
  | goreleaser (project_name : String) (module_name : String)
  | dependabot (ecosystem : String)
  | cifuzz (project_name : String) (language : String)
  | mainGo
deriving DecidableEq, Repr

/-- The oracle fixing every external interaction of one pipeline run:
the `GITHUB_TOKEN` environment variable, forge HTTP responses, subprocess
outcomes, template renders, serialization outputs, the SHA-256 digest
function (`sha2::Sha256` in lowercase-hex `format!` rendering, abstract
here), fault injection for local file writes, and the clock. -/
structure World where
  githubToken : Option String
  githubPost : String → RunResult String
  githubPut : String → RunResult String
  githubPutNoBody : String → RunResult Unit
  jsonPretty : String → Except SkootError String
  procRun : ProcRunner
  render : Template → Except SkootError String
  yamlToString : SecurityInsights → String
  sha256Hex : String → String
  writeFault : String → Option SkootError
  now : Int
  nowYear : Int

/-! ## Source driver file operations
(`skootrs-lib/src/service/source.rs`) -/

/-- Full path of a facet file: `Path::new(&source.path).join(path).join(name)`,
modelled as `/`-separated concatenation (applied consistently by the write
and hash operations, so separator normalization is immaterial). -/
def fullPathOf (root path name : String) : String :=
  root ++ ("/" ++ path ++ "/" ++ name)

/-- Write a file under the working copy
(`LocalSourceService::write_file`): ensure the directory, then write the
full contents; fails with an IO error exactly when the oracle injects a
fault at that path. -/
def LocalSourceService.write_file (w : World) (source : InitializedSource)
    (path name contents : String) : M Unit := fun fs =>
  match w.writeFault (fullPathOf source.path path name) with
  | some e => ⟨[.fileWrite path name], fs, .err e⟩
  | none =>
    ⟨[.fileWrite path name], fsWrite fs (fullPathOf source.path path name) contents, .ok ()⟩

/-- Hash a file under the working copy (`LocalSourceService::hash_file`):
open the file (an IO error when it does not exist) and produce the
lowercase-hex SHA-256 of its bytes, via the abstract digest function. -/
def LocalSourceService.hash_file (w : World) (source : InitializedSource)
    (path name : String) : M String := fun fs =>
  ⟨[.fileHash path name], fs,
    match fsRead fs (fullPathOf source.path path name) with
    | none => .err "No such file or directory"
    | some contents => .ok (w.sha256Hex contents)⟩

/-! ## Facet content generators (`skootrs-lib/src/service/facet.rs`) -/

/-- The content of a set of source files (`SourceBundleContent`). -/
structure SourceBundleContent where
  source_files_content : List SourceFileContent
  facet_type : SupportedFacetType
deriving DecidableEq, Repr

/-- README generation
(`DefaultSourceBundleContentHandler::generate_readme_content`). -/
def DefaultSourceBundleContentHandler.generate_readme_content (w : World)
    (params : SourceBundleFacetCreateParams) : RunResult SourceBundleContent :=
  match w.render (.readme params.common.project_name) with
  | .error e => .err e
  | .ok content =>
    .ok { source_files_content := [{ name := "README.md", path := "./", content := content }]
          facet_type := .Readme }

/-- LICENSE generation
(`DefaultSourceBundleContentHandler::generate_license_content`); the date
is the current UTC year. -/
def DefaultSourceBundleContentHandler.generate_license_content (w : World)
    (params : SourceBundleFacetCreateParams) : RunResult SourceBundleContent :=
  match w.render (.license params.common.project_name w.nowYear) with
  | .error e => .err e
  | .ok content =>
    .ok { source_files_content := [{ name := "LICENSE", path := "./", content := content }]
          facet_type := .License }

/-- SECURITY.md generation
(`DefaultSourceBundleContentHandler::generate_security_policy_content`). -/
def DefaultSourceBundleContentHandler.generate_security_policy_content (w : World)
    (_params : SourceBundleFacetCreateParams) : RunResult SourceBundleContent :=
  match w.render .securityPrerelease with
  | .error e => .err e
  | .ok content =>
    .ok { source_files_content := [{ name := "SECURITY.md", path := "./", content := content }]
          facet_type := .SecurityPolicy }

/-- Scorecard workflow generation
(`DefaultSourceBundleContentHandler::generate_scorecard_content`). -/
def DefaultSourceBundleContentHandler.generate_scorecard_content (w : World)
    (_params : SourceBundleFacetCreateParams) : RunResult SourceBundleContent :=
  match w.render .scorecard with
  | .error e => .err e
  | .ok content =>
    .ok { source_files_content :=
            [{ name := "scorecard.yml", path := "./.github/workflows", content := content }]
          facet_type := .Scorecard }

/-- The SECURITY-INSIGHTS document built by
`DefaultSourceBundleContentHandler::generate_security_insights_content`,
field for field; `chrono::Utc::now()` is the oracle clock, `now + 365
days` is abstracted as a day count added to the clock. -/
def securityInsightsOf (w : World) (params : SourceBundleFacetCreateParams) :
    SecurityInsights :=
  { contribution_policy :=
      { accepts_automated_pull_requests := true
        accepts_pull_requests := true
        automated_tools_list := none
        code_of_conduct := none
        contributing_policy := none }
    dependencies := some
      { dependencies_lifecycle := none
        dependencies_lists := [params.common.repo.full_url ++ "/blob/main/go.mod"]
        env_dependencies_policy := none
        sbom := some
          [ { sbom_creation := some "Created by goreleaser"
              sbom_file := some (params.common.repo.full_url
                ++ "/releases/latest/download/main-linux-amd64.spdx.sbom.json")
              sbom_format := some "SPDX"
              sbom_url := some "https://spdx.github.io/spdx-spec/v2.3/" },
            { sbom_creation := some "Created by goreleaser"
              sbom_file := some (params.common.repo.full_url
                ++ "/releases/latest/download/main-linux-arm.spdx.sbom.json")
              sbom_format := some "SPDX"
              sbom_url := some "https://spdx.github.io/spdx-spec/v2.3/" },
            { sbom_creation := some "Created by goreleaser"
              sbom_file := some (params.common.repo.full_url
                ++ "/releases/latest/download/main-linux-arm64.spdx.sbom.json")
              sbom_format := some "SPDX"
              sbom_url := some "https://spdx.github.io/spdx-spec/v2.3/" },
            { sbom_creation := some "Created by goreleaser"
              sbom_file := some (params.common.repo.full_url
                ++ "/releases/latest/download/main-windows-amd64.exe.spdx.sbom.json")
              sbom_format := some "SPDX"
              sbom_url := some "https://spdx.github.io/spdx-spec/v2.3/" },
            { sbom_creation := some "Created by goreleaser"
              sbom_file := some (params.common.repo.full_url
                ++ "/releases/latest/download/main.spdx.sbom.json")
              sbom_format := some "SPDX"
              sbom_url := some "https://spdx.github.io/spdx-spec/v2.3/" } ]
        third_party_packages := some true }
    distribution_points := []
    documentation := none
    header :=
      { changelog := none
        commit_hash := none
        expiration_date := w.now + 365
        last_reviewed := some w.now
        last_updated := some w.now
        license := some (params.common.repo.full_url ++ "/blob/main/LICENSE")
        project_release := none
        project_url := params.common.repo.full_url
        schema_version := .schema100 }
    project_lifecycle :=
      { bug_fixes_only := false
        core_maintainers := none
        release_cycle := none
        release_process := none
        roadmap := none
        status := .active }
    security_artifacts := none
    security_assessments := none
    security_contacts := []
    security_testing := []
    vulnerability_reporting :=
      { accepts_vulnerability_reports := true
        bug_bounty_available := none
        bug_bounty_url := none
        comment := none
        email_contact := none
        in_scope := none
        out_scope := none
        pgp_key := none
        security_policy := some (params.common.repo.full_url ++ "/blob/main/SECURITY.md") } }

/-- SECURITY-INSIGHTS.yml generation
(`DefaultSourceBundleContentHandler::generate_security_insights_content`):
build the document and serialize it to YAML (the `serde_yaml::to_string`
output is the oracle's serialization of the document). -/
def DefaultSourceBundleContentHandler.generate_security_insights_content (w : World)
    (params : SourceBundleFacetCreateParams) : RunResult SourceBundleContent :=
  let content := w.yamlToString (securityInsightsOf w params)
  .ok { source_files_content :=
          [{ name := "SECURITY-INSIGHTS.yml", path := "./", content := content }]
        facet_type := .SecurityInsights }

/-- CodeQL workflow generation
(`DefaultSourceBundleContentHandler::generate_sast_content`). -/
def DefaultSourceBundleContentHandler.generate_sast_content (w : World)
    (_params : SourceBundleFacetCreateParams) : RunResult SourceBundleContent :=
  match w.render .codeql with
  | .error e => .err e
  | .ok content =>
    .ok { source_files_content :=
            [{ name := "codeql.yml", path := "./.github/workflows", content := content }]
          facet_type := .SAST }

/-- Ecosystem-independent content dispatch
(`impl SourceBundleContentGenerator for DefaultSourceBundleContentHandler`);
the catch-all arm is `todo!("Not implemented yet")`. -/
def DefaultSourceBundleContentHandler.generate_content (w : World)
    (params : SourceBundleFacetCreateParams) : RunResult SourceBundleContent :=
  match params.facet_type with
  | .Readme => DefaultSourceBundleContentHandler.generate_readme_content w params
  | .License => DefaultSourceBundleContentHandler.generate_license_content w params
  | .SecurityPolicy => DefaultSourceBundleContentHandler.generate_security_policy_content w params
  | .Scorecard => DefaultSourceBundleContentHandler.generate_scorecard_content w params
  | .SecurityInsights =>
    DefaultSourceBundleContentHandler.generate_security_insights_content w params
  | .SAST => DefaultSourceBundleContentHandler.generate_sast_content w params
  | _ => .panicked "Not implemented yet"

/-- Gitignore generation
(`GoGithubSourceBundleContentHandler::generate_gitignore_content`). -/
def GoGithubSourceBundleContentHandler.generate_gitignore_content (w : World)
    (_params : SourceBundleFacetCreateParams) : RunResult SourceBundleContent :=
  match w.render .goGitignore with
  | .error e => .err e
  | .ok content =>
    .ok { source_files_content := [{ name := ".gitignore", path := "./", content := content }]
          facet_type := .Gitignore }

/-- SLSA build (goreleaser) generation
(`GoGithubSourceBundleContentHandler::generate_slsa_build_content`): three
templates rendered for three files; the non-Go ecosystem arm is
`unreachable!`. -/
def GoGithubSourceBundleContentHandler.generate_slsa_build_content (w : World)
    (params : SourceBundleFacetCreateParams) : RunResult SourceBundleContent :=
  match params.common.ecosystem with
  | .Maven _ => .panicked "internal error: entered unreachable code"
  | .Go go =>
    match w.render .goReleases with
    | .error e => .err e
    | .ok c1 =>
      match w.render (.dockerfileGoreleaser params.common.project_name) with
      | .error e => .err e
      | .ok c2 =>
        match w.render (.goreleaser params.common.project_name go.module) with
        | .error e => .err e
        | .ok c3 =>
          .ok { source_files_content :=
                  [ { name := "releases.yml", path := ".github/workflows/", content := c1 },
                    { name := "Dockerfile.goreleaser", path := "./", content := c2 },
                    { name := ".goreleaser.yml", path := "./", content := c3 } ]
                facet_type := .SLSABuild }

/-- Dependabot generation
(`GoGithubSourceBundleContentHandler::generate_dependency_update_tool_content`). -/
def GoGithubSourceBundleContentHandler.generate_dependency_update_tool_content (w : World)
    (_params : SourceBundleFacetCreateParams) : RunResult SourceBundleContent :=
  match w.render (.dependabot "gomod") with
  | .error e => .err e
  | .ok content =>
    .ok { source_files_content :=
            [{ name := "dependabot.yml", path := ".github/", content := content }]
          facet_type := .DependencyUpdateTool }

/-- CIFuzz generation
(`GoGithubSourceBundleContentHandler::generate_fuzzing_content`). -/
def GoGithubSourceBundleContentHandler.generate_fuzzing_content (w : World)
    (params : SourceBundleFacetCreateParams) : RunResult SourceBundleContent :=
  match w.render (.cifuzz params.common.project_name "go") with
  | .error e => .err e
  | .ok content =>
    .ok { source_files_content :=
            [{ name := "cifuzz.yml", path := ".github/workflows/", content := content }]
          facet_type := .Fuzzing }

/-- Default main.go generation
(`GoGithubSourceBundleContentHandler::generate_default_source_code_content`). -/
def GoGithubSourceBundleContentHandler.generate_default_source_code_content (w : World)
    (_params : SourceBundleFacetCreateParams) : RunResult SourceBundleContent :=
  match w.render .mainGo with
  | .error e => .err e
  | .ok content =>
    .ok { source_files_content := [{ name := "main.go", path := "./", content := content }]
          facet_type := .DefaultSourceCode }

/-- Go-on-Github content dispatch
(`impl SourceBundleContentGenerator for GoGithubSourceBundleContentHandler`);
the catch-all arm is `todo!("Not implemented yet")`. -/
def GoGithubSourceBundleContentHandler.generate_content (w : World)
    (params : SourceBundleFacetCreateParams) : RunResult SourceBundleContent :=
  match params.facet_type with
  | .Gitignore => GoGithubSourceBundleContentHandler.generate_gitignore_content w params
  | .SLSABuild => GoGithubSourceBundleContentHandler.generate_slsa_build_content w params
  | .DependencyUpdateTool =>
    GoGithubSourceBundleContentHandler.generate_dependency_update_tool_content w params
  | .Fuzzing => GoGithubSourceBundleContentHandler.generate_fuzzing_content w params
  | .DefaultSourceCode =>
    GoGithubSourceBundleContentHandler.generate_default_source_code_content w params
  | _ => .panicked "Not implemented yet"

/-! ## Facet services (`skootrs-lib/src/service/facet.rs`) -/

/-- The facet-type dispatch inside
`SourceBundleFacetService::initialize for LocalFacetService`, choosing
between the ecosystem-independent and the language-specific handler; the
unlisted facet types are `todo!()` and `VulnerabilityReporting` is
`unimplemented!`. -/
def sourceBundleContentDispatch (w : World)
    (params : SourceBundleFacetCreateParams) : RunResult SourceBundleContent :=
  match params.facet_type with
  | .Readme | .License | .SecurityPolicy | .Scorecard | .SecurityInsights =>
    DefaultSourceBundleContentHandler.generate_content w params
  | .Gitignore | .SLSABuild | .DependencyUpdateTool =>
    GoGithubSourceBundleContentHandler.generate_content w params
  | .SBOMGenerator => .panicked "not yet implemented"
  | .StaticCodeAnalysis => .panicked "not yet implemented"
  | .BranchProtection => .panicked "not yet implemented"
  | .CodeReview => .panicked "not yet implemented"
  | .Fuzzing => GoGithubSourceBundleContentHandler.generate_content w params
  | .PublishPackages => .panicked "not yet implemented"
  | .PinnedDependencies => .panicked "not yet implemented"
  | .SAST => DefaultSourceBundleContentHandler.generate_content w params
  | .VulnerabilityScanner => .panicked "not yet implemented"
  | .GUACForwardingConfig => .panicked "not yet implemented"
  | .Allstar => .panicked "not yet implemented"
  | .DefaultSourceCode => GoGithubSourceBundleContentHandler.generate_content w params
  | .VulnerabilityReporting =>
    .panicked "VulnerabilityReporting is not implemented for source bundles"
  | .Other => .panicked "not yet implemented"

/-- The write loop of `SourceBundleFacetService::initialize`: write every
generated file via `Source::write_file`, in order, stopping at the first
error. -/
def writeAllFiles (w : World) (source : InitializedSource) :
    List SourceFileContent → M Unit
  | [] => mPure ()
  | c :: rest =>
    mBind (LocalSourceService.write_file w source c.path c.name c.content)
      (fun _ => writeAllFiles w source rest)

/-- The hash loop of `SourceBundleFacetService::initialize`: map every
generated file to a `SourceFile` whose hash is the digest of the file now
on disk, in order, stopping at the first error. -/
def hashAllFiles (w : World) (source : InitializedSource) :
    List SourceFileContent → M (List SourceFile)
  | [] => mPure []
  | c :: rest =>
    mBind (LocalSourceService.hash_file w source c.path c.name) (fun h =>
      mBind (hashAllFiles w source rest) (fun sfs =>
        mPure ({ name := c.name, path := c.path, hash := h } :: sfs)))

/-- Source-bundle facet initialization
(`SourceBundleFacetService::initialize for LocalFacetService`): choose the
language-specific handler (the Maven arm is `todo!()`, firing before the
facet-type dispatch), generate the content, write every file, then hash the
files on disk and return the facet with `source_files` populated and
`source_files_content = None`. -/
def SourceBundleFacetService.initialize (w : World)
    (params : SourceBundleFacetCreateParams) : M SourceBundleFacet :=
  match params.common.ecosystem with
  | .Maven _ => mPanicked "not yet implemented"
  | .Go _ =>
    mBind (mOfRunResult (sourceBundleContentDispatch w params)) (fun content =>
      mBind (writeAllFiles w params.common.source content.source_files_content) (fun _ =>
        mBind (hashAllFiles w params.common.source content.source_files_content)
          (fun source_files =>
            mPure { source_files := some source_files
                    facet_type := params.facet_type
                    source_files_content := none })))

/-- Branch-protection API facet
(`GithubAPIBundleHandler::generate_branch_protection`): re-authenticate the
shared client from `GITHUB_TOKEN` (`expect` panics when the variable is
absent), PUT the protection body, pretty-print the JSON response into the
recorded `APIContent`. -/
def GithubAPIBundleHandler.generate_branch_protection (w : World)
    (repo : InitializedGithubRepo) : M APIBundleFacet :=
  let endpoint := "/repos/" ++ repo.organization.get_name ++ "/" ++ repo.name
    ++ "/branches/main/protection"
  match w.githubToken with
  | none => mPanicked "GITHUB_TOKEN env var must be populated"
  | some _ =>
    mBind (fun fs => ⟨[.apiCall endpoint], fs, w.githubPut endpoint⟩) (fun response =>
      mBind (mOfExcept (w.jsonPretty response)) (fun pretty =>
        mPure { facet_type := .BranchProtection
                apis := [{ name := "Enforce Branch Protection", url := endpoint,
                           response := pretty }] }))

/-- Vulnerability-reporting API facet
(`GithubAPIBundleHandler::generate_vulnerability_reporting`): PUT with no
body on the shared client; the recorded response is the literal
`"Success"`. -/
def GithubAPIBundleHandler.generate_vulnerability_reporting (w : World)
    (repo : InitializedGithubRepo) : M APIBundleFacet :=
  let endpoint := "/repos/" ++ repo.organization.get_name ++ "/" ++ repo.name
    ++ "/private-vulnerability-reporting"
  mBind (fun fs => ⟨[.apiCall endpoint], fs, w.githubPutNoBody endpoint⟩) (fun _ =>
    mPure { facet_type := .VulnerabilityReporting
            apis := [{ name := "Enabling vulnerability reporting", url := endpoint,
                       response := "Success" }] })

/-- API facet dispatch (`impl APIBundleHandler for GithubAPIBundleHandler`);
the catch-all arm is `todo!("Not implemented yet")`. -/
def GithubAPIBundleHandler.generate (w : World) (params : APIBundleFacetParams) :
    M APIBundleFacet :=
  match params.common.repo with
  | .Github repo =>
    match params.facet_type with
    | .BranchProtection => GithubAPIBundleHandler.generate_branch_protection w repo
    | .VulnerabilityReporting => GithubAPIBundleHandler.generate_vulnerability_reporting w repo
    | _ => mPanicked "Not implemented yet"

/-- API-bundle facet initialization
(`APIBundleFacetService::initialize for LocalFacetService`): only
CodeReview, BranchProtection and VulnerabilityReporting reach the Github
handler; everything else is `todo!("Not implemented yet")`. -/
def APIBundleFacetService.initialize (w : World) (params : APIBundleFacetParams) :
    M APIBundleFacet :=
  match params.facet_type with
  | .CodeReview | .BranchProtection | .VulnerabilityReporting =>
    GithubAPIBundleHandler.generate w params
  | _ => mPanicked "Not implemented yet"

/-- Root facet dispatch
(`RootFacetService::initialize for LocalFacetService`). The `skootrs-lib`
revision also carries a deprecated `SourceFile` params arm whose body is
`todo!("This has been removed in favor of SourceBundle")`; the param type of
that arm is absent from the model sources, so the variant is omitted here. -/
def RootFacetService.initialize (w : World) (params : FacetCreateParams) :
    M InitializedFacet :=
  match params with
  | .SourceBundle p =>
    mBind ( SourceBundleFacetService.initialize w p)
      (fun f => mPure (.SourceBundle f))
  | .APIBundle p =>
    mBind ( APIBundleFacetService.initialize w p)
      (fun f => mPure (.APIBundle f))

/-- The facet list traversal of `RootFacetService::initialize_all`
(`futures::future::try_join_all`, linearized in plan order with
all-or-first-error join). -/
def initializeAllList (w : World) : List FacetCreateParams → M (List InitializedFacet)
  | [] => mPure []
  | p :: rest =>
    mBind ( RootFacetService.initialize w p) (fun f =>
      mBind (initializeAllList w rest) (fun fs =>
        mPure (f :: fs)))

/-- Facet set initialization
(`RootFacetService::initialize_all for LocalFacetService`). -/
def RootFacetService.initialize_all (w : World) (params : FacetSetCreateParams) :
    M (List InitializedFacet) :=
  initializeAllList w params.facets_params

/-! ## Default facet plans (`FacetSetParamsGenerator`) -/

/-- The ordered list of default source-bundle facet types
(`generate_default_source_bundle_facet_params`); the commented-out entries
of the source array (SBOMGenerator, Fuzzing, CodeReview, ...) are absent. -/
def defaultSourceBundleFacetTypes : List SupportedFacetType :=
  [.Readme, .License, .Gitignore, .SecurityPolicy, .SecurityInsights, .SLSABuild,
   .DependencyUpdateTool, .Scorecard, .SAST, .DefaultSourceCode]

/-- The ordered list of default API-bundle facet types
(`generate_default_api_bundle`). -/
def defaultApiBundleFacetTypes : List SupportedFacetType :=
  [.BranchProtection, .VulnerabilityReporting]

/-- Default source-bundle plan
(`FacetSetParamsGenerator::generate_default_source_bundle_facet_params`);
the Rust `Result` wrapper is always `Ok`. -/
def FacetSetParamsGenerator.generate_default_source_bundle_facet_params
    (common_params : CommonFacetCreateParams) : FacetSetCreateParams :=
  { facets_params := defaultSourceBundleFacetTypes.map (fun facet_type =>
      .SourceBundle { common := common_params, facet_type := facet_type }) }

/-- Default API-bundle plan
(`FacetSetParamsGenerator::generate_default_api_bundle`); the Rust `Result`
wrapper is always `Ok`. -/
def FacetSetParamsGenerator.generate_default_api_bundle
    (common_params : CommonFacetCreateParams) : FacetSetCreateParams :=
  { facets_params := defaultApiBundleFacetTypes.map (fun facet_type =>
      .APIBundle { common := common_params, facet_type := facet_type }) }

/-- The concatenated default plan
(`FacetSetParamsGenerator::generate_default`): the source-bundle params
followed by the API-bundle params. -/
def FacetSetParamsGenerator.generate_default
    (common_params : CommonFacetCreateParams) : FacetSetCreateParams :=
  { facets_params :=
      (FacetSetParamsGenerator.generate_default_source_bundle_facet_params
          common_params).facets_params
        ++ (FacetSetParamsGenerator.generate_default_api_bundle
          common_params).facets_params }

/-! ## Repo driver and orchestrator
(`skootrs-lib/src/service/repo.rs`, `project.rs`) -/

/-- Repo creation (`GithubRepoHandler::create`): POST the fixed body to
`/user/repos` for user-owned repos or `/orgs/{name}/repos` for
organization-owned ones, then return the initialized repo built from the
params. The repository-created CDEvent is only serialized into the log
stream and is omitted here. -/
def GithubRepoHandler.create (w : World) (g : GithubRepoParams) :
    M InitializedGithubRepo :=
  let endpoint :=
    match g.organization with
    | .User _ => "/user/repos"
    | .Organization name => "/orgs/" ++ name ++ "/repos"
  mBind (fun fs => ⟨[.repoCreate endpoint], fs, w.githubPost endpoint⟩) (fun _ =>
    mPure { name := g.name, organization := g.organization })

/-- Repo service initialization (`LocalRepoService::initialize`): build the
octocrab client from `GITHUB_TOKEN` (`expect` panics when absent), then
dispatch on the forge variant. -/
def LocalRepoService.initialize (w : World) (params : RepoCreateParams) :
    M InitializedRepo :=
  match w.githubToken with
  | none => mPanicked "GITHUB_TOKEN env var must be populated"
  | some _ =>
    match params with
    | .Github g => mBind (GithubRepoHandler.create w g) (fun r => mPure (.Github r))

/-- Local clone (`GithubRepoHandler::clone_local`): spawn `git clone
<fullUrl>` in the parent path (`Command::output()?` with the output ignored,
so only a spawn failure propagates) and return the working copy at
`parent/<repoName>`. -/
def GithubRepoHandler.clone_local (w : World) (repo : InitializedGithubRepo)
    (path : String) : M InitializedSource :=
  mBind (fun fs =>
      ⟨[.sourceClone repo.full_url], fs,
        match w.procRun { program := "git", args := ["clone", repo.full_url], cwd := path } with
        | .error e => .err e
        | .ok _ => .ok ()⟩)
    (fun _ => mPure { path := path ++ "/" ++ repo.name })

/-- Source working-copy initialization (`LocalSourceService::initialize`):
delegate to the repo driver's local clone. -/
def LocalSourceService.initialize (w : World) (params : SourceInitializeParams)
    (initialized_repo : InitializedRepo) : M InitializedSource :=
  match initialized_repo with
  | .Github g => GithubRepoHandler.clone_local w g params.parent_path

/-- The ecosystem service step of the pipeline
(`LocalEcosystemService::initialize`), lifted into the effect model with
its subprocess resolved by the oracle. -/
def ecosystemServiceInitialize (w : World) (params : EcosystemInitializeParams)
    (source : InitializedSource) : M InitializedEcosystem := fun fs =>
  ⟨[.ecosystemInit], fs,
    match LocalEcosystemService.initialize w.procRun params source with
    | .error e => .err e
    | .ok eco => .ok eco⟩

/-- The commit-and-push step of the pipeline
(`LocalSourceService::commit_and_push_changes`), lifted into the effect
model with its git subprocesses resolved by the oracle. -/
def sourceCommitAndPush (w : World) (source : InitializedSource) (message : String) :
    M Unit := fun fs =>
  ⟨[.commitPush], fs,
    match LocalSourceService.commit_and_push_changes w.procRun source message with
    | .error e => .err e
    | .ok _ => .ok ()⟩

/-- The project orchestrator (`LocalProjectService::initialize`,
`project.rs:101-159`): repo creation, clone, ecosystem initialization,
default plan generation, source-bundle facet phase, commit-and-push
barrier, API-bundle facet phase, then collection of all facets into a map
keyed by `FacetMapKey::Type(facet_type)`. -/
def LocalProjectService.initialize (w : World) (params : ProjectCreateParams) :
    M InitializedProject :=
  mBind ( LocalRepoService.initialize w params.repo_params) (fun initialized_repo =>
  mBind ( LocalSourceService.initialize w params.source_params initialized_repo)
    (fun initialized_source =>
  mBind (ecosystemServiceInitialize w params.ecosystem_params initialized_source)
    (fun initialized_ecosystem =>
  let common_params : CommonFacetCreateParams :=
    { project_name := params.name
      source := initialized_source
      repo := initialized_repo
      ecosystem := initialized_ecosystem }
  let source_facet_set_params :=
    FacetSetParamsGenerator.generate_default_source_bundle_facet_params common_params
  let api_facet_set_params :=
    FacetSetParamsGenerator.generate_default_api_bundle common_params
  mBind (RootFacetService.initialize_all w source_facet_set_params)
    (fun initialized_source_facets =>
  mBind (sourceCommitAndPush w initialized_source "Initialized project") (fun _ =>
  mBind (RootFacetService.initialize_all w api_facet_set_params)
    (fun initialized_api_facets =>
  let initialized_facets := facetMapCollect
    ((initialized_source_facets ++ initialized_api_facets).map
      (fun f => (FacetMapKey.Type f.facet_type, f)))
  mPure { repo := initialized_repo
          ecosystem := initialized_ecosystem
          source := initialized_source
          facets := initialized_facets }))))))

/-! ## A concrete run (spec scenario 1: create a Go project in a user
account) -/

/-- A concrete oracle in which every external interaction succeeds. -/
def testWorld : World :=
  { githubToken := some "token"
    githubPost := fun _ => .ok "created"
    githubPut := fun _ => .ok "protected"
    githubPutNoBody := fun _ => .ok ()
    jsonPretty := fun s => .ok s
    procRun := fun _ => .ok { status := 0, stdout := "", stderrUtf8 := some "" }
    render := fun _ => .ok "template-output"
    yamlToString := fun _ => "yaml-document"
    sha256Hex := fun s => "h-" ++ s
    writeFault := fun _ => none
    now := 0
    nowYear := 2024 }

/-- Scenario 1 creation parameters: Go project `demo` under user `alice`. -/
def demoProjectParams : ProjectCreateParams :=
  { name := "demo"
    repo_params := .Github { name := "demo", description := "", organization := .User "alice" }
    ecosystem_params := .Go { name := "demo", host := "github.com/alice" }
    source_params := { parent_path := "/tmp" } }

/-- Number of facet-map entries of a successful run. -/
def facetCountOf (s : Step InitializedProject) : Option Nat :=
  match s.result with
  | .ok p => some p.facets.length
  | _ => none

/-! ## Claim C1: size of the facet map of a created project -/

/-- C1 counterexample: the claim asserts the facets map of the created
project has exactly 10 entries; the run of the orchestrator on the scenario
1 parameters (in a world where every interaction succeeds) returns a
project whose facet map has 12 entries — 10 source-bundle facet types plus
the 2 API-bundle facet types (BranchProtection, VulnerabilityReporting),
all keyed by distinct `Type` keys. -/
theorem c1_facet_map_size_counterexample :
    facetCountOf ( LocalProjectService.initialize testWorld demoProjectParams []) = some 12
    ∧ (12 : Nat) ≠ 10 :=
  ⟨rfl, by decide⟩

/-- Sequencing characterization: a successful bind yields a successful
first component and a successful continuation started on its file system. -/
theorem mBind_ok {α β : Type} {m : M α} {f : α → M β} {fs : FS} {b : β}
    (h : ((mBind m f) fs).result = .ok b) :
    ∃ a, (m fs).result = .ok a ∧ ((f a) (m fs).fs).result = .ok b := by
  unfold mBind at h
  rcases hm : m fs with ⟨t, fs1, r⟩
  rw [hm] at h
  cases r with
  | ok a =>
    refine ⟨a, rfl, ?_⟩
    show ((f a) fs1).result = .ok b
    rcases hf : f a fs1 with ⟨t2, fs2, r2⟩
    simp at h
    rw [hf] at h
    exact h
  | err e => simp at h
  | panicked msg => simp at h

/-- A successfully initialized source-bundle facet carries the requested
facet type. -/
theorem sourceBundle_initialize_facet_type {w : World}
    {p : SourceBundleFacetCreateParams} {fs : FS} {f : SourceBundleFacet}
    (h : (( SourceBundleFacetService.initialize w p) fs).result = .ok f) :
    f.facet_type = p.facet_type := by
  unfold SourceBundleFacetService.initialize at h
  cases heco : p.common.ecosystem with
  | Maven m => rw [heco] at h; simp [mPanicked] at h
  | Go g =>
    rw [heco] at h
    obtain ⟨content, h1, h2⟩ := mBind_ok h
    obtain ⟨u, h3, h4⟩ := mBind_ok h2
    obtain ⟨sfs, h5, h6⟩ := mBind_ok h4
    simp [mPure] at h6
    rw [← h6]

/-- A successfully initialized API-bundle facet carries the requested facet
type. -/
theorem apiBundle_initialize_facet_type {w : World}
    {p : APIBundleFacetParams} {fs : FS} {f : APIBundleFacet}
    (h : (( APIBundleFacetService.initialize w p) fs).result = .ok f) :
    f.facet_type = p.facet_type := by
  unfold APIBundleFacetService.initialize at h
  cases hft : p.facet_type
  case BranchProtection =>
    rw [hft] at h
    unfold GithubAPIBundleHandler.generate at h
    rcases hrepo : p.common.repo with ⟨repo⟩
    rw [hrepo, hft] at h
    unfold GithubAPIBundleHandler.generate_branch_protection at h
    cases htok : w.githubToken with
    | none => rw [htok] at h; simp [mPanicked] at h
    | some tok =>
      rw [htok] at h
      obtain ⟨resp, h1, h2⟩ := mBind_ok h
      obtain ⟨pretty, h3, h4⟩ := mBind_ok h2
      simp [mPure] at h4
      rw [← h4]
  case VulnerabilityReporting =>
    rw [hft] at h
    unfold GithubAPIBundleHandler.generate at h
    rcases hrepo : p.common.repo with ⟨repo⟩
    rw [hrepo, hft] at h
    unfold GithubAPIBundleHandler.generate_vulnerability_reporting at h
    obtain ⟨u, h1, h2⟩ := mBind_ok h
    simp [mPure] at h2
    rw [← h2]
  case CodeReview =>
    rw [hft] at h
    unfold GithubAPIBundleHandler.generate at h
    rcases hrepo : p.common.repo with ⟨repo⟩
    rw [hrepo, hft] at h
    simp [mPanicked] at h
  all_goals rw [hft] at h; simp [mPanicked] at h

/-- A successfully initialized facet carries the facet type requested by
its create params. -/
theorem root_initialize_facet_type {w : World} {p : FacetCreateParams} {fs : FS}
    {f : InitializedFacet}
    (h : (( RootFacetService.initialize w p) fs).result = .ok f) :
    f.facet_type = p.facetTypeOf := by
  cases p with
  | SourceBundle sp =>
    unfold RootFacetService.initialize at h
    obtain ⟨sb, h1, h2⟩ := mBind_ok h
    simp [mPure] at h2
    rw [← h2]
    exact sourceBundle_initialize_facet_type h1
  | APIBundle ap =>
    unfold RootFacetService.initialize at h
    obtain ⟨ab, h1, h2⟩ := mBind_ok h
    simp [mPure] at h2
    rw [← h2]
    exact apiBundle_initialize_facet_type h1

/-- The facets returned by a successful `initialize_all` carry exactly the
facet types of the plan, in order. -/
theorem initializeAllList_types (w : World) :
    ∀ (plan : List FacetCreateParams) (fs : FS) (res : List InitializedFacet),
    ((initializeAllList w plan) fs).result = .ok res →
    res.map InitializedFacet.facet_type = plan.map FacetCreateParams.facetTypeOf := by
  intro plan
  induction plan with
  | nil =>
    intro fs res h
    simp [initializeAllList, mPure] at h
    subst h
    simp
  | cons p rest ih =>
    intro fs res h
    unfold initializeAllList at h
    obtain ⟨f, h1, h2⟩ := mBind_ok h
    obtain ⟨restFacets, h3, h4⟩ := mBind_ok h2
    simp [mPure] at h4
    subst h4
    simp [root_initialize_facet_type h1, ih _ _ h3]

/-- Inserting a fresh key appends the pair. -/
theorem facetMapInsert_fresh {m : FacetMap} {k : FacetMapKey} {v : InitializedFacet}
    (h : k ∉ m.map Prod.fst) : facetMapInsert m k v = m ++ [(k, v)] := by
  unfold facetMapInsert
  rw [if_neg]
  intro hc
  simp only [List.any_eq_true, beq_iff_eq] at hc
  obtain ⟨kv, hmem, hk⟩ := hc
  exact h (hk ▸ List.mem_map_of_mem Prod.fst hmem)

/-- Folding insertions of pairwise-fresh keys into a map grows it by the
number of pairs. -/
theorem foldl_facetMapInsert_length :
    ∀ (l : List (FacetMapKey × InitializedFacet)) (m : FacetMap),
    (m.map Prod.fst ++ l.map Prod.fst).Nodup →
    (l.foldl (fun acc kv => facetMapInsert acc kv.1 kv.2) m).length = m.length + l.length := by
  intro l
  induction l with
  | nil => intro m _; simp
  | cons kv rest ih =>
    intro m h
    have hk : kv.1 ∉ m.map Prod.fst := by
      intro hmem
      have hd := List.disjoint_of_nodup_append h
      exact hd hmem (by simp)
    rw [List.foldl_cons, facetMapInsert_fresh hk]
    have h2 : ((m ++ [(kv.1, kv.2)]).map Prod.fst ++ rest.map Prod.fst).Nodup := by
      have : (m ++ [(kv.1, kv.2)]).map Prod.fst = m.map Prod.fst ++ [kv.1] := by simp
      rw [this, List.append_assoc, List.singleton_append]
      simpa using h
    rw [ih (m ++ [(kv.1, kv.2)]) h2]
    simp
    omega

/-- Collecting pairs with pairwise-distinct keys yields a map with one entry
per pair. -/
theorem facetMapCollect_length {l : List (FacetMapKey × InitializedFacet)}
    (h : (l.map Prod.fst).Nodup) : (facetMapCollect l).length = l.length := by
  have := foldl_facetMapInsert_length l [] (by simpa using h)
  simpa [facetMapCollect] using this

/-- The facet types requested by the default source-bundle plan, in order. -/
theorem default_source_plan_types (common : CommonFacetCreateParams) :
    (FacetSetParamsGenerator.generate_default_source_bundle_facet_params
        common).facets_params.map FacetCreateParams.facetTypeOf
      = defaultSourceBundleFacetTypes := by
  simp [FacetSetParamsGenerator.generate_default_source_bundle_facet_params,
    List.map_map, Function.comp_def, FacetCreateParams.facetTypeOf]

/-- The facet types requested by the default API-bundle plan, in order. -/
theorem default_api_plan_types (common : CommonFacetCreateParams) :
    (FacetSetParamsGenerator.generate_default_api_bundle
        common).facets_params.map FacetCreateParams.facetTypeOf
      = defaultApiBundleFacetTypes := by
  simp [FacetSetParamsGenerator.generate_default_api_bundle,
    List.map_map, Function.comp_def, FacetCreateParams.facetTypeOf]

/-- C1 (amended): for every oracle world and creation parameters, a
successful run of the orchestrator returns a project whose facets map has
exactly 12 entries: the 10 default source-bundle facet types and the 2
default API-bundle facet types, each under its own `Type` key. -/
theorem c1_facet_map_size_amended (w : World) (params : ProjectCreateParams)
    (fs : FS) (p : InitializedProject)
    (h : (( LocalProjectService.initialize w params) fs).result = .ok p) :
    p.facets.length = 12 := by
  unfold LocalProjectService.initialize at h
  obtain ⟨repo, h1, h2⟩ := mBind_ok h
  obtain ⟨src, h3, h4⟩ := mBind_ok h2
  obtain ⟨eco, h5, h6⟩ := mBind_ok h4
  obtain ⟨sfacets, h7, h8⟩ := mBind_ok h6
  obtain ⟨u, h9, h10⟩ := mBind_ok h8
  obtain ⟨afacets, h11, h12⟩ := mBind_ok h10
  simp [mPure] at h12
  subst h12
  have hsf := initializeAllList_types w _ _ _ h7
  have haf := initializeAllList_types w _ _ _ h11
  rw [default_source_plan_types] at hsf
  rw [default_api_plan_types] at haf
  have hkeys :
      (((sfacets ++ afacets).map (fun f => (FacetMapKey.Type f.facet_type, f))).map
          Prod.fst)
        = (defaultSourceBundleFacetTypes ++ defaultApiBundleFacetTypes).map
            FacetMapKey.Type := by
    simp only [List.map_map, List.map_append]
    rw [show ((Prod.fst ∘ fun f => (FacetMapKey.Type f.facet_type, f)) :
        InitializedFacet → FacetMapKey)
      = (FacetMapKey.Type ∘ InitializedFacet.facet_type) from rfl]
    rw [List.comp_map FacetMapKey.Type InitializedFacet.facet_type sfacets,
      List.comp_map FacetMapKey.Type InitializedFacet.facet_type afacets,
      hsf, haf]
  have hnodup :
      ((((sfacets ++ afacets).map (fun f => (FacetMapKey.Type f.facet_type, f))).map
          Prod.fst)).Nodup := by
    rw [hkeys]
    decide
  have hlen := facetMapCollect_length hnodup
  have l1 : sfacets.length = 10 := by
    have := congrArg List.length hsf
    simpa [defaultSourceBundleFacetTypes] using this
  have l2 : afacets.length = 2 := by
    have := congrArg List.length haf
    simpa [defaultApiBundleFacetTypes] using this
  rw [← List.map_append, hlen]
  simp only [List.length_map, List.length_append, l1, l2]

/-- C1 witness: the amended count evaluated on the concrete scenario 1
run. -/
theorem c1_facet_map_size_amended_witness :
    ∃ p : InitializedProject,
      (( LocalProjectService.initialize testWorld demoProjectParams) []).result = .ok p
      ∧ p.facets.length = 12 := by
  cases hp : (( LocalProjectService.initialize testWorld demoProjectParams) []).result with
  | ok p => exact ⟨p, rfl, c1_facet_map_size_amended testWorld demoProjectParams [] p hp⟩
  | err e =>
    have hb : (( LocalProjectService.initialize testWorld demoProjectParams) []).result.isErr
        = true := by rw [hp]; rfl
    exact absurd hb (by decide)
  | panicked msg =>
    have hb : (( LocalProjectService.initialize testWorld demoProjectParams) []).result.isPanic
        = true := by rw [hp]; rfl
    exact absurd hb (by decide)

/-! ## Claim C6: unsupported facet/ecosystem combinations -/

/-- Source-bundle create params for a Maven-ecosystem project requesting
SLSABuild, a combination outside the catalogue. -/
def mavenDemoSBParams : SourceBundleFacetCreateParams :=
  { common := { project_name := "demo"
                source := { path := "/tmp/demo" }
                repo := .Github { name := "demo", organization := .User "alice" }
                ecosystem := .Maven { group_id := "com.example", artifact_id := "demo" } }
    facet_type := .SLSABuild }

/-- C6 counterexample: the claim asserts an out-of-catalogue combination
(Maven + SLSABuild) returns an Unsupported error; the initialization
instead aborts with the `todo!()` panic selecting the language-specific
handler, which is not an error return. -/
theorem c6_unsupported_counterexample :
    (( SourceBundleFacetService.initialize testWorld mavenDemoSBParams) []).result
      = .panicked "not yet implemented"
    ∧ (( SourceBundleFacetService.initialize testWorld mavenDemoSBParams) []).result.isErr
      = false :=
  ⟨rfl, rfl⟩

/-- C6 (amended): a facet/ecosystem combination outside the catalogue
aborts with a panic rather than returning a normal (Unsupported) error: any
source-bundle request on a Maven-ecosystem project panics in the `todo!()`
handler selection before the facet type is even inspected, and a facet type
without a generator (e.g. SBOMGenerator) on a Go project panics in the
`todo!()` dispatch arm. -/
theorem c6_unsupported_panics_amended :
    (∀ (w : World) (p : SourceBundleFacetCreateParams) (fs : FS) (m : InitializedMaven),
        p.common.ecosystem = .Maven m →
        (( SourceBundleFacetService.initialize w p) fs).result
          = .panicked "not yet implemented")
    ∧ (∀ (w : World) (p : SourceBundleFacetCreateParams) (fs : FS) (g : InitializedGo),
        p.common.ecosystem = .Go g → p.facet_type = .SBOMGenerator →
        (( SourceBundleFacetService.initialize w p) fs).result
          = .panicked "not yet implemented") := by
  constructor
  · intro w p fs m heco
    unfold SourceBundleFacetService.initialize
    rw [heco]
    rfl
  · intro w p fs g heco hft
    have hd : sourceBundleContentDispatch w p = .panicked "not yet implemented" := by
      unfold sourceBundleContentDispatch
      rw [hft]
    unfold SourceBundleFacetService.initialize
    rw [heco, hd]
    rfl

/-- C6 witness: the amended statement evaluated at the concrete Maven +
SLSABuild request. -/
theorem c6_unsupported_panics_amended_witness :
    (( SourceBundleFacetService.initialize testWorld mavenDemoSBParams) []).result
      = .panicked "not yet implemented" :=
  c6_unsupported_panics_amended.1 testWorld mavenDemoSBParams []
    { group_id := "com.example", artifact_id := "demo" } rfl

/-! ## Claim C8: SecurityInsights document fields -/

/-- C8: for every project (in particular every Go+Github project), the
SecurityInsights generator produces exactly one YAML file,
`SECURITY-INSIGHTS.yml` at the source root, serializing a document whose
header.projectUrl is the repo's full URL, header.license is
projectUrl/blob/main/LICENSE, header.schemaVersion is "1.0.0",
vulnerabilityReporting.securityPolicy is projectUrl/blob/main/SECURITY.md,
dependencies.dependenciesLists is the one-element list
[projectUrl/blob/main/go.mod], and dependencies.sbom is exactly the five
SPDX references for the GoReleaser outputs main-linux-amd64, main-linux-arm,
main-linux-arm64, main-windows-amd64.exe and main, each with sbomFormat
"SPDX" and sbomUrl "https://spdx.github.io/spdx-spec/v2.3/". -/
theorem c8_security_insights_fields (w : World) (params : SourceBundleFacetCreateParams) :
    DefaultSourceBundleContentHandler.generate_security_insights_content w params
      = .ok { source_files_content :=
                [{ name := "SECURITY-INSIGHTS.yml", path := "./",
                   content := w.yamlToString (securityInsightsOf w params) }]
              facet_type := .SecurityInsights }
    ∧ (securityInsightsOf w params).header.project_url = params.common.repo.full_url
    ∧ (securityInsightsOf w params).header.license
        = some (params.common.repo.full_url ++ "/blob/main/LICENSE")
    ∧ (securityInsightsOf w params).header.schema_version.toStr = "1.0.0"
    ∧ (securityInsightsOf w params).vulnerability_reporting.security_policy
        = some (params.common.repo.full_url ++ "/blob/main/SECURITY.md")
    ∧ ((securityInsightsOf w params).dependencies.map
          (fun d => d.dependencies_lists))
        = some [params.common.repo.full_url ++ "/blob/main/go.mod"]
    ∧ ((securityInsightsOf w params).dependencies.map (fun d => d.sbom))
        = some (some
            [ { sbom_creation := some "Created by goreleaser"
                sbom_file := some (params.common.repo.full_url
                  ++ "/releases/latest/download/main-linux-amd64.spdx.sbom.json")
                sbom_format := some "SPDX"
                sbom_url := some "https://spdx.github.io/spdx-spec/v2.3/" },
              { sbom_creation := some "Created by goreleaser"
                sbom_file := some (params.common.repo.full_url
                  ++ "/releases/latest/download/main-linux-arm.spdx.sbom.json")
                sbom_format := some "SPDX"
                sbom_url := some "https://spdx.github.io/spdx-spec/v2.3/" },
              { sbom_creation := some "Created by goreleaser"
                sbom_file := some (params.common.repo.full_url
                  ++ "/releases/latest/download/main-linux-arm64.spdx.sbom.json")
                sbom_format := some "SPDX"
                sbom_url := some "https://spdx.github.io/spdx-spec/v2.3/" },
              { sbom_creation := some "Created by goreleaser"
                sbom_file := some (params.common.repo.full_url
                  ++ "/releases/latest/download/main-windows-amd64.exe.spdx.sbom.json")
                sbom_format := some "SPDX"
                sbom_url := some "https://spdx.github.io/spdx-spec/v2.3/" },
              { sbom_creation := some "Created by goreleaser"
                sbom_file := some (params.common.repo.full_url
                  ++ "/releases/latest/download/main.spdx.sbom.json")
                sbom_format := some "SPDX"
                sbom_url := some "https://spdx.github.io/spdx-spec/v2.3/" } ]) :=
  ⟨rfl, rfl, rfl, rfl, rfl, rfl, rfl⟩

/-! ## Claim C4: content-addressed hashes of written files -/

/-- Reading back a just-written path yields the written content. -/
theorem fsRead_write_self (fs : FS) (p c : String) :
    fsRead (fsWrite fs p c) p = some c := by
  simp [fsRead, fsWrite, List.lookup]

/-- Writing one path leaves reads of other paths unchanged. -/
theorem fsRead_write_ne (fs : FS) {p q : String} (c : String) (h : p ≠ q) :
    fsRead (fsWrite fs p c) q = fsRead fs q := by
  have hb : (q == p) = false := by
    simp only [beq_eq_false_iff_ne]
    exact fun he => h he.symm
  simp [fsRead, fsWrite, List.lookup, hb]

/-- The write loop touches only the full paths of its own files: reads of
any other path are unchanged, whether or not the loop succeeds. -/
theorem writeAllFiles_frame (w : World) (src : InitializedSource) :
    ∀ (files : List SourceFileContent) (fs : FS) (q : String),
    (∀ c ∈ files, fullPathOf src.path c.path c.name ≠ q) →
    fsRead (((writeAllFiles w src files) fs).fs) q = fsRead fs q := by
  intro files
  induction files with
  | nil => intro fs q _; rfl
  | cons c rest ih =>
    intro fs q hq
    have hcq : fullPathOf src.path c.path c.name ≠ q := hq c (by simp)
    have hrest : ∀ d ∈ rest, fullPathOf src.path d.path d.name ≠ q :=
      fun d hd => hq d (by simp [hd])
    show fsRead ((mBind (LocalSourceService.write_file w src c.path c.name c.content)
        (fun _ => writeAllFiles w src rest) fs).fs) q = fsRead fs q
    unfold mBind LocalSourceService.write_file
    cases hfault : w.writeFault (fullPathOf src.path c.path c.name) with
    | some e => simp [hfault]
    | none =>
      simp only [hfault]
      rcases hw : writeAllFiles w src rest
          (fsWrite fs (fullPathOf src.path c.path c.name) c.content) with ⟨t2, fs2, r2⟩
      simp only [hw]
      have := ih (fsWrite fs (fullPathOf src.path c.path c.name) c.content) q hrest
      rw [hw] at this
      simp only at this
      rw [this, fsRead_write_ne _ _ hcq]

/-- Small-step equation of the write loop: the head file either faults (an
IO error, loop stops) or is written, and the loop continues on the updated
file system. -/
theorem writeAllFiles_cons (w : World) (src : InitializedSource)
    (c : SourceFileContent) (rest : List SourceFileContent) (fs : FS) :
    (writeAllFiles w src (c :: rest)) fs =
      match w.writeFault (fullPathOf src.path c.path c.name) with
      | some e => ⟨[.fileWrite c.path c.name], fs, .err e⟩
      | none =>
        let s := (writeAllFiles w src rest)
          (fsWrite fs (fullPathOf src.path c.path c.name) c.content)
        ⟨.fileWrite c.path c.name :: s.trace, s.fs, s.result⟩ := by
  cases hfault : w.writeFault (fullPathOf src.path c.path c.name) with
  | some e =>
    simp only [writeAllFiles, mBind, LocalSourceService.write_file, hfault]
  | none =>
    simp only [writeAllFiles, mBind, LocalSourceService.write_file, hfault,
      List.singleton_append]

/-- Small-step equation of the hash loop: the head file is read and hashed
(an IO error when absent) and the loop continues on the same file system. -/
theorem hashAllFiles_cons (w : World) (src : InitializedSource)
    (c : SourceFileContent) (rest : List SourceFileContent) (fs : FS) :
    (hashAllFiles w src (c :: rest)) fs =
      match fsRead fs (fullPathOf src.path c.path c.name) with
      | none => ⟨[.fileHash c.path c.name], fs, .err "No such file or directory"⟩
      | some contents =>
        let s := (hashAllFiles w src rest) fs
        match s.result with
        | .ok sfs => ⟨.fileHash c.path c.name :: s.trace, s.fs,
            .ok ({ name := c.name, path := c.path, hash := w.sha256Hex contents } :: sfs)⟩
        | .err e => ⟨.fileHash c.path c.name :: s.trace, s.fs, .err e⟩
        | .panicked m => ⟨.fileHash c.path c.name :: s.trace, s.fs, .panicked m⟩ := by
  cases hread : fsRead fs (fullPathOf src.path c.path c.name) with
  | none =>
    simp only [hashAllFiles, mBind, LocalSourceService.hash_file, hread]
  | some contents =>
    rcases hs : (hashAllFiles w src rest) fs with ⟨t2, fs2, r2⟩
    cases r2 <;>
      simp only [hashAllFiles, mBind, mPure, LocalSourceService.hash_file, hread, hs,
        List.singleton_append, List.append_nil]

/-- After a successful write loop over files with pairwise-distinct full
paths, the file system holds each file's written content at its full path. -/
theorem writeAllFiles_reads (w : World) (src : InitializedSource) :
    ∀ (files : List SourceFileContent) (fs : FS),
    files.Pairwise (fun a b =>
      fullPathOf src.path a.path a.name ≠ fullPathOf src.path b.path b.name) →
    ((writeAllFiles w src files) fs).result = .ok () →
    ∀ c ∈ files,
      fsRead (((writeAllFiles w src files) fs).fs)
        (fullPathOf src.path c.path c.name) = some c.content := by
  intro files
  induction files with
  | nil => intro fs _ _ c hc; simp at hc
  | cons c rest ih =>
    intro fs hpair hok d hd
    rw [writeAllFiles_cons] at hok ⊢
    cases hfault : w.writeFault (fullPathOf src.path c.path c.name) with
    | some e => rw [hfault] at hok; simp at hok
    | none =>
      rw [hfault] at hok
      dsimp only at hok ⊢
      rcases List.mem_cons.mp hd with hdc | hdr
      · subst hdc
        rw [writeAllFiles_frame w src rest _ _
          (fun b hb => ((List.pairwise_cons.mp hpair).1 b hb).symm)]
        exact fsRead_write_self _ _ _
      · exact ih _ (List.pairwise_cons.mp hpair).2 hok d hdr

/-- The hash loop over files whose contents are on disk returns the
source-file records whose hashes are the digests of those contents. -/
theorem hashAllFiles_ok (w : World) (src : InitializedSource) :
    ∀ (files : List SourceFileContent) (fs : FS),
    (∀ c ∈ files, fsRead fs (fullPathOf src.path c.path c.name) = some c.content) →
    ((hashAllFiles w src files) fs).result
      = .ok (files.map (fun c =>
          { name := c.name, path := c.path, hash := w.sha256Hex c.content })) := by
  intro files
  induction files with
  | nil => intro fs _; rfl
  | cons c rest ih =>
    intro fs hreads
    rw [hashAllFiles_cons, hreads c (by simp)]
    dsimp only
    rw [ih fs (fun d hd => hreads d (by simp [hd]))]
    simp

/-- Distinct relative path/name suffixes give distinct full paths under any
source root. -/
theorem fullPathOf_ne {root p1 n1 p2 n2 : String}
    (h : ("/" ++ p1 ++ "/" ++ n1 : String) ≠ "/" ++ p2 ++ "/" ++ n2) :
    fullPathOf root p1 n1 ≠ fullPathOf root p2 n2 :=
  fun he => h (strAppend_left_cancel he)

/-- Every source bundle the dispatcher generates has pairwise-distinct full
paths under the project's working copy (single-file bundles trivially, the
three SLSABuild files by their distinct names). -/
theorem generated_paths_pairwise (w : World) (p : SourceBundleFacetCreateParams)
    {content : SourceBundleContent}
    (h : sourceBundleContentDispatch w p = .ok content) :
    content.source_files_content.Pairwise (fun a b =>
      fullPathOf p.common.source.path a.path a.name
        ≠ fullPathOf p.common.source.path b.path b.name) := by
  unfold sourceBundleContentDispatch at h
  cases hft : p.facet_type <;> rw [hft] at h
  case Readme =>
    unfold DefaultSourceBundleContentHandler.generate_content at h
    rw [hft] at h
    unfold DefaultSourceBundleContentHandler.generate_readme_content at h
    cases hr : w.render (.readme p.common.project_name) with
    | error e => rw [hr] at h; simp at h
    | ok c => rw [hr] at h; simp at h; subst h; simp
  case License =>
    unfold DefaultSourceBundleContentHandler.generate_content at h
    rw [hft] at h
    unfold DefaultSourceBundleContentHandler.generate_license_content at h
    cases hr : w.render (.license p.common.project_name w.nowYear) with
    | error e => rw [hr] at h; simp at h
    | ok c => rw [hr] at h; simp at h; subst h; simp
  case SecurityPolicy =>
    unfold DefaultSourceBundleContentHandler.generate_content at h
    rw [hft] at h
    unfold DefaultSourceBundleContentHandler.generate_security_policy_content at h
    cases hr : w.render .securityPrerelease with
    | error e => rw [hr] at h; simp at h
    | ok c => rw [hr] at h; simp at h; subst h; simp
  case Scorecard =>
    unfold DefaultSourceBundleContentHandler.generate_content at h
    rw [hft] at h
    unfold DefaultSourceBundleContentHandler.generate_scorecard_content at h
    cases hr : w.render .scorecard with
    | error e => rw [hr] at h; simp at h
    | ok c => rw [hr] at h; simp at h; subst h; simp
  case SecurityInsights =>
    unfold DefaultSourceBundleContentHandler.generate_content at h
    rw [hft] at h
    unfold DefaultSourceBundleContentHandler.generate_security_insights_content at h
    simp at h
    subst h
    simp
  case SAST =>
    unfold DefaultSourceBundleContentHandler.generate_content at h
    rw [hft] at h
    unfold DefaultSourceBundleContentHandler.generate_sast_content at h
    cases hr : w.render .codeql with
    | error e => rw [hr] at h; simp at h
    | ok c => rw [hr] at h; simp at h; subst h; simp
  case Gitignore =>
    unfold GoGithubSourceBundleContentHandler.generate_content at h
    rw [hft] at h
    unfold GoGithubSourceBundleContentHandler.generate_gitignore_content at h
    cases hr : w.render .goGitignore with
    | error e => rw [hr] at h; simp at h
    | ok c => rw [hr] at h; simp at h; subst h; simp
  case DependencyUpdateTool =>
    unfold GoGithubSourceBundleContentHandler.generate_content at h
    rw [hft] at h
    unfold GoGithubSourceBundleContentHandler.generate_dependency_update_tool_content at h
    cases hr : w.render (.dependabot "gomod") with
    | error e => rw [hr] at h; simp at h
    | ok c => rw [hr] at h; simp at h; subst h; simp
  case Fuzzing =>
    unfold GoGithubSourceBundleContentHandler.generate_content at h
    rw [hft] at h
    unfold GoGithubSourceBundleContentHandler.generate_fuzzing_content at h
    cases hr : w.render (.cifuzz p.common.project_name "go") with
    | error e => rw [hr] at h; simp at h
    | ok c => rw [hr] at h; simp at h; subst h; simp
  case DefaultSourceCode =>
    unfold GoGithubSourceBundleContentHandler.generate_content at h
    rw [hft] at h
    unfold GoGithubSourceBundleContentHandler.generate_default_source_code_content at h
    cases hr : w.render .mainGo with
    | error e => rw [hr] at h; simp at h
    | ok c => rw [hr] at h; simp at h; subst h; simp
  case SLSABuild =>
    unfold GoGithubSourceBundleContentHandler.generate_content at h
    rw [hft] at h
    unfold GoGithubSourceBundleContentHandler.generate_slsa_build_content at h
    cases heco : p.common.ecosystem with
    | Maven m => rw [heco] at h; simp at h
    | Go g =>
      rw [heco] at h
      dsimp only at h
      cases hr1 : w.render .goReleases with
      | error e => rw [hr1] at h; simp at h
      | ok c1 =>
        rw [hr1] at h
        cases hr2 : w.render (.dockerfileGoreleaser p.common.project_name) with
        | error e => rw [hr2] at h; simp at h
        | ok c2 =>
          rw [hr2] at h
          cases hr3 : w.render (.goreleaser p.common.project_name g.module) with
          | error e => rw [hr3] at h; simp at h
          | ok c3 =>
            rw [hr3] at h
            simp at h
            subst h
            simp only [List.pairwise_cons, List.mem_cons, List.not_mem_nil]
            refine ⟨?_, ?_, ?_⟩
            · intro b hb
              rcases hb with hb | hb | hb
              · subst hb; exact fullPathOf_ne (by dsimp only; decide)
              · subst hb; exact fullPathOf_ne (by dsimp only; decide)
              · simp at hb
            · intro b hb
              rcases hb with hb | hb
              · subst hb; exact fullPathOf_ne (by dsimp only; decide)
              · simp at hb
            · simp
  all_goals simp at h

/-- C4: every `SourceFile` recorded in a successfully initialized
source-bundle facet has as its hash the SHA-256 digest of exactly the bytes
written for that file at application time: the facet's `source_files` is
the generated content list with each entry's content replaced by its
digest. -/
theorem c4_source_file_hashes (w : World) (p : SourceBundleFacetCreateParams)
    (fs : FS) (f : SourceBundleFacet)
    (h : (( SourceBundleFacetService.initialize w p) fs).result = .ok f) :
    ∃ content : SourceBundleContent,
      sourceBundleContentDispatch w p = .ok content
      ∧ f.source_files = some (content.source_files_content.map
          (fun c => { name := c.name, path := c.path, hash := w.sha256Hex c.content })) := by
  unfold SourceBundleFacetService.initialize at h
  cases heco : p.common.ecosystem with
  | Maven m => rw [heco] at h; simp [mPanicked] at h
  | Go g =>
    rw [heco] at h
    obtain ⟨content, h1, h2⟩ := mBind_ok h
    have h1' : sourceBundleContentDispatch w p = .ok content := h1
    obtain ⟨u, h3, h4⟩ := mBind_ok h2
    obtain ⟨sfs, h5, h6⟩ := mBind_ok h4
    simp [mPure] at h6
    subst h6
    refine ⟨content, h1', ?_⟩
    have hpair := generated_paths_pairwise w p h1'
    have h3' : ((writeAllFiles w p.common.source content.source_files_content)
        ((mOfRunResult (sourceBundleContentDispatch w p) : M SourceBundleContent) fs).fs).result
        = .ok () := by cases u; exact h3
    have hreads := writeAllFiles_reads w p.common.source content.source_files_content
      _ hpair h3'
    have hhash := hashAllFiles_ok w p.common.source content.source_files_content
      _ hreads
    rw [h5] at hhash
    simp only [RunResult.ok.injEq] at hhash
    rw [← hhash]

/-- Source-bundle create params for a Go project requesting a README, used
to evaluate the hash property concretely. -/
def goDemoSBParams : SourceBundleFacetCreateParams :=
  { common := { project_name := "demo"
                source := { path := "/tmp/demo" }
                repo := .Github { name := "demo", organization := .User "alice" }
                ecosystem := .Go { name := "demo", host := "github.com/alice" } }
    facet_type := .Readme }

/-- C4 witness: the hash property evaluated on a concrete README
initialization — the recorded hash is the digest of the rendered README
content. -/
theorem c4_source_file_hashes_witness :
    ∃ content : SourceBundleContent,
      sourceBundleContentDispatch testWorld goDemoSBParams = .ok content
      ∧ ({ source_files :=
             some [{ name := "README.md", path := "./", hash := "h-template-output" }]
           facet_type := SupportedFacetType.Readme
           source_files_content := none } : SourceBundleFacet).source_files
        = some (content.source_files_content.map
            (fun c => { name := c.name, path := c.path,
                        hash := testWorld.sha256Hex c.content })) :=
  c4_source_file_hashes testWorld goDemoSBParams []
    { source_files := some [{ name := "README.md", path := "./", hash := "h-template-output" }]
      facet_type := .Readme
      source_files_content := none } (by rfl)

/-! ## Claim C2: phase ordering of the default plan and of the pipeline
trace -/

/-- A trace whose events are internally phase-ordered and whose phases all
lie in the interval `[lo, hi]`. -/
def Staged (t : List Event) (lo hi : Nat) : Prop :=
  t.Pairwise (fun a b => a.phase ≤ b.phase) ∧ ∀ e ∈ t, lo ≤ e.phase ∧ e.phase ≤ hi

/-- The empty trace is staged in any interval. -/
theorem staged_nil {lo hi : Nat} : Staged [] lo hi :=
  ⟨List.Pairwise.nil, by simp⟩

/-- A singleton trace is staged in any interval containing its phase. -/
theorem staged_single {e : Event} {lo hi : Nat} (h1 : lo ≤ e.phase)
    (h2 : e.phase ≤ hi) : Staged [e] lo hi :=
  ⟨List.pairwise_singleton _ _, by simpa using ⟨h1, h2⟩⟩

/-- Staging is monotone in the interval. -/
theorem staged_mono {t : List Event} {lo hi lo' hi' : Nat} (h : Staged t lo hi)
    (h1 : lo' ≤ lo) (h2 : hi ≤ hi') : Staged t lo' hi' :=
  ⟨h.1, fun e he => ⟨Nat.le_trans h1 (h.2 e he).1, Nat.le_trans (h.2 e he).2 h2⟩⟩

/-- Concatenating a trace staged up to `mid` with one staged from `mid`
yields a staged trace. -/
theorem staged_append {t1 t2 : List Event} {lo mid hi : Nat}
    (h1 : Staged t1 lo mid) (h2 : Staged t2 mid hi)
    (hlm : lo ≤ mid) (hmh : mid ≤ hi) : Staged (t1 ++ t2) lo hi := by
  constructor
  · rw [List.pairwise_append]
    exact ⟨h1.1, h2.1,
      fun a ha b hb => Nat.le_trans (h1.2 a ha).2 (h2.2 b hb).1⟩
  · intro e he
    rcases List.mem_append.mp he with he | he
    · exact ⟨(h1.2 e he).1, Nat.le_trans (h1.2 e he).2 hmh⟩
    · exact ⟨Nat.le_trans hlm (h2.2 e he).1, (h2.2 e he).2⟩

/-- Staging composes through sequencing: a first stage up to `mid` followed
by a continuation from `mid` on. -/
theorem staged_bind {α β : Type} {m : M α} {f : α → M β} {lo mid hi : Nat}
    (hm : ∀ fs, Staged ((m fs)).trace lo mid)
    (hf : ∀ a fs, Staged (((f a) fs)).trace mid hi)
    (h1 : lo ≤ mid) (h2 : mid ≤ hi) :
    ∀ fs, Staged (((mBind m f) fs)).trace lo hi := by
  intro fs
  unfold mBind
  rcases hs : m fs with ⟨t, fs1, r⟩
  have hmt : Staged t lo mid := by
    have := hm fs
    rw [hs] at this
    exact this
  cases r with
  | ok a => exact staged_append hmt (hf a fs1) h1 h2
  | err e => exact staged_mono hmt (Nat.le_refl _) h2
  | panicked msg => exact staged_mono hmt (Nat.le_refl _) h2

/-- Pure returns and lifted results add no events. -/
theorem staged_mPure {α : Type} (a : α) (lo hi : Nat) :
    ∀ fs, Staged (((mPure a : M α)) fs).trace lo hi := fun _ => staged_nil

/-- Lifted outcomes add no events. -/
theorem staged_mOfRunResult {α : Type} (r : RunResult α) (lo hi : Nat) :
    ∀ fs, Staged (((mOfRunResult r : M α)) fs).trace lo hi := fun _ => staged_nil

/-- Lifted `Result`s add no events. -/
theorem staged_mOfExcept {α : Type} (r : Except SkootError α) (lo hi : Nat) :
    ∀ fs, Staged (((mOfExcept r : M α)) fs).trace lo hi := fun _ => staged_nil

/-- Panics add no events. -/
theorem staged_mPanicked {α : Type} (msg : String) (lo hi : Nat) :
    ∀ fs, Staged (((mPanicked msg : M α)) fs).trace lo hi := fun _ => staged_nil

/-- A file write emits exactly one facet-file event (phase 1). -/
theorem staged_write_file (w : World) (src : InitializedSource) (p n c : String) :
    ∀ fs, Staged (((LocalSourceService.write_file w src p n c)) fs).trace 1 1 := by
  intro fs
  have ht : (((LocalSourceService.write_file w src p n c)) fs).trace
      = [Event.fileWrite p n] := by
    unfold LocalSourceService.write_file
    cases w.writeFault (fullPathOf src.path p n) <;> rfl
  rw [ht]
  exact staged_single (Nat.le_refl 1) (Nat.le_refl 1)

/-- A file hash emits exactly one facet-file event (phase 1). -/
theorem staged_hash_file (w : World) (src : InitializedSource) (p n : String) :
    ∀ fs, Staged (((LocalSourceService.hash_file w src p n)) fs).trace 1 1 := by
  intro fs
  have ht : (((LocalSourceService.hash_file w src p n)) fs).trace
      = [Event.fileHash p n] := rfl
  rw [ht]
  exact staged_single (Nat.le_refl 1) (Nat.le_refl 1)

/-- The write loop stays in the facet-file phase. -/
theorem staged_writeAllFiles (w : World) (src : InitializedSource) :
    ∀ (files : List SourceFileContent) (fs : FS),
    Staged (((writeAllFiles w src files)) fs).trace 1 1 := by
  intro files
  induction files with
  | nil => intro fs; exact staged_nil
  | cons c rest ih =>
    exact staged_bind (staged_write_file w src c.path c.name c.content)
      (fun _ => ih) (Nat.le_refl _) (Nat.le_refl _)

/-- The hash loop stays in the facet-file phase. -/
theorem staged_hashAllFiles (w : World) (src : InitializedSource) :
    ∀ (files : List SourceFileContent) (fs : FS),
    Staged (((hashAllFiles w src files)) fs).trace 1 1 := by
  intro files
  induction files with
  | nil => intro fs; exact staged_nil
  | cons c rest ih =>
    exact staged_bind (staged_hash_file w src c.path c.name)
      (fun h => staged_bind ih (fun sfs => staged_mPure _ 1 1)
        (Nat.le_refl _) (Nat.le_refl _))
      (Nat.le_refl _) (Nat.le_refl _)

/-- Source-bundle facet initialization stays in the facet-file phase. -/
theorem staged_sourceBundleInitialize (w : World) (p : SourceBundleFacetCreateParams) :
    ∀ fs, Staged ((( SourceBundleFacetService.initialize w p)) fs).trace 1 1 := by
  unfold SourceBundleFacetService.initialize
  cases p.common.ecosystem with
  | Maven m => exact staged_mPanicked _ 1 1
  | Go g =>
    exact staged_bind (staged_mOfRunResult _ 1 1)
      (fun content => staged_bind
        (staged_writeAllFiles w p.common.source content.source_files_content)
        (fun _ => staged_bind
          (staged_hashAllFiles w p.common.source content.source_files_content)
          (fun source_files => staged_mPure _ 1 1)
          (Nat.le_refl _) (Nat.le_refl _))
        (Nat.le_refl _) (Nat.le_refl _))
      (Nat.le_refl _) (Nat.le_refl _)

/-- The branch-protection API facet emits only forge API events (phase 3). -/
theorem staged_branch_protection (w : World) (repo : InitializedGithubRepo) :
    ∀ fs, Staged (((GithubAPIBundleHandler.generate_branch_protection w repo)) fs).trace 3 3 := by
  unfold GithubAPIBundleHandler.generate_branch_protection
  cases w.githubToken with
  | none => exact staged_mPanicked _ 3 3
  | some tok =>
    exact staged_bind (fun fs => staged_single (Nat.le_refl 3) (Nat.le_refl 3))
      (fun response => staged_bind (staged_mOfExcept _ 3 3)
        (fun pretty => staged_mPure _ 3 3) (Nat.le_refl _) (Nat.le_refl _))
      (Nat.le_refl _) (Nat.le_refl _)

/-- The vulnerability-reporting API facet emits only forge API events
(phase 3). -/
theorem staged_vulnerability_reporting (w : World) (repo : InitializedGithubRepo) :
    ∀ fs, Staged
      (((GithubAPIBundleHandler.generate_vulnerability_reporting w repo)) fs).trace 3 3 := by
  unfold GithubAPIBundleHandler.generate_vulnerability_reporting
  exact staged_bind (fun fs => staged_single (Nat.le_refl 3) (Nat.le_refl 3))
    (fun u => staged_mPure _ 3 3) (Nat.le_refl _) (Nat.le_refl _)

/-- The Github API facet dispatch emits only forge API events (phase 3). -/
theorem staged_githubGenerate (w : World) (p : APIBundleFacetParams) :
    ∀ fs, Staged (((GithubAPIBundleHandler.generate w p)) fs).trace 3 3 := by
  unfold GithubAPIBundleHandler.generate
  cases p.common.repo with
  | Github repo =>
    cases p.facet_type <;>
      first
        | exact staged_branch_protection w repo
        | exact staged_vulnerability_reporting w repo
        | exact staged_mPanicked _ 3 3

/-- API-bundle facet initialization emits only forge API events (phase 3). -/
theorem staged_apiBundleInitialize (w : World) (p : APIBundleFacetParams) :
    ∀ fs, Staged ((( APIBundleFacetService.initialize w p)) fs).trace 3 3 := by
  unfold APIBundleFacetService.initialize
  cases p.facet_type <;>
    first
      | exact staged_githubGenerate w p
      | exact staged_mPanicked _ 3 3

/-- Root initialization of a source-bundle facet stays in phase 1. -/
theorem staged_rootInitialize_sb (w : World) (sp : SourceBundleFacetCreateParams) :
    ∀ fs, Staged ((( RootFacetService.initialize w (.SourceBundle sp))) fs).trace 1 1 := by
  unfold RootFacetService.initialize
  exact staged_bind (staged_sourceBundleInitialize w sp)
    (fun f => staged_mPure _ 1 1) (Nat.le_refl _) (Nat.le_refl _)

/-- Root initialization of an API-bundle facet stays in phase 3. -/
theorem staged_rootInitialize_api (w : World) (ap : APIBundleFacetParams) :
    ∀ fs, Staged ((( RootFacetService.initialize w (.APIBundle ap))) fs).trace 3 3 := by
  unfold RootFacetService.initialize
  exact staged_bind (staged_apiBundleInitialize w ap)
    (fun f => staged_mPure _ 3 3) (Nat.le_refl _) (Nat.le_refl _)

/-- Initializing a plan of source-bundle params stays in phase 1. -/
theorem staged_initializeAllList_sb (w : World) :
    ∀ (plan : List FacetCreateParams),
    (∀ q ∈ plan, q.isSourceBundle = true) →
    ∀ fs, Staged (((initializeAllList w plan)) fs).trace 1 1 := by
  intro plan
  induction plan with
  | nil => intro _ fs; exact staged_nil
  | cons q rest ih =>
    intro hall
    cases q with
    | SourceBundle sp =>
      exact staged_bind (staged_rootInitialize_sb w sp)
        (fun f => staged_bind (ih (fun r hr => hall r (by simp [hr])))
          (fun l => staged_mPure _ 1 1) (Nat.le_refl _) (Nat.le_refl _))
        (Nat.le_refl _) (Nat.le_refl _)
    | APIBundle ap =>
      exact absurd (hall (.APIBundle ap) (by simp))
        (by simp [FacetCreateParams.isSourceBundle])

/-- Initializing a plan of API-bundle params stays in phase 3. -/
theorem staged_initializeAllList_api (w : World) :
    ∀ (plan : List FacetCreateParams),
    (∀ q ∈ plan, q.isAPIBundle = true) →
    ∀ fs, Staged (((initializeAllList w plan)) fs).trace 3 3 := by
  intro plan
  induction plan with
  | nil => intro _ fs; exact staged_nil
  | cons q rest ih =>
    intro hall
    cases q with
    | APIBundle ap =>
      exact staged_bind (staged_rootInitialize_api w ap)
        (fun f => staged_bind (ih (fun r hr => hall r (by simp [hr])))
          (fun l => staged_mPure _ 3 3) (Nat.le_refl _) (Nat.le_refl _))
        (Nat.le_refl _) (Nat.le_refl _)
    | SourceBundle sp =>
      exact absurd (hall (.SourceBundle sp) (by simp))
        (by simp [FacetCreateParams.isAPIBundle])

/-- Repo creation emits only setup events (phase 0). -/
theorem staged_githubRepoCreate (w : World) (g : GithubRepoParams) :
    ∀ fs, Staged (((GithubRepoHandler.create w g)) fs).trace 0 0 := by
  unfold GithubRepoHandler.create
  exact staged_bind (fun fs => staged_single (Nat.le_refl 0) (Nat.le_refl 0))
    (fun r => staged_mPure _ 0 0) (Nat.le_refl _) (Nat.le_refl _)

/-- Repo service initialization emits only setup events (phase 0). -/
theorem staged_repoInitialize (w : World) (params : RepoCreateParams) :
    ∀ fs, Staged ((( LocalRepoService.initialize w params)) fs).trace 0 0 := by
  unfold LocalRepoService.initialize
  cases w.githubToken with
  | none => exact staged_mPanicked _ 0 0
  | some tok =>
    cases params with
    | Github g =>
      exact staged_bind (staged_githubRepoCreate w g)
        (fun r => staged_mPure _ 0 0) (Nat.le_refl _) (Nat.le_refl _)

/-- Local clone emits only setup events (phase 0). -/
theorem staged_cloneLocal (w : World) (repo : InitializedGithubRepo) (path : String) :
    ∀ fs, Staged (((GithubRepoHandler.clone_local w repo path)) fs).trace 0 0 := by
  unfold GithubRepoHandler.clone_local
  exact staged_bind (fun fs => staged_single (Nat.le_refl 0) (Nat.le_refl 0))
    (fun u => staged_mPure _ 0 0) (Nat.le_refl _) (Nat.le_refl _)

/-- Source working-copy initialization emits only setup events (phase 0). -/
theorem staged_sourceInitialize (w : World) (params : SourceInitializeParams)
    (repo : InitializedRepo) :
    ∀ fs, Staged ((( LocalSourceService.initialize w params repo)) fs).trace 0 0 := by
  unfold LocalSourceService.initialize
  cases repo with
  | Github g => exact staged_cloneLocal w g params.parent_path

/-- Ecosystem initialization emits only setup events (phase 0). -/
theorem staged_ecosystemInitialize (w : World) (params : EcosystemInitializeParams)
    (source : InitializedSource) :
    ∀ fs, Staged (((ecosystemServiceInitialize w params source)) fs).trace 0 0 :=
  fun _ => staged_single (Nat.le_refl 0) (Nat.le_refl 0)

/-- Commit-and-push emits only the barrier event (phase 2). -/
theorem staged_commitAndPush (w : World) (source : InitializedSource) (msg : String) :
    ∀ fs, Staged (((sourceCommitAndPush w source msg)) fs).trace 2 2 :=
  fun _ => staged_single (Nat.le_refl 2) (Nat.le_refl 2)

/-- Every facet param of the default source-bundle plan is a source-bundle
param. -/
theorem default_source_plan_all_sb (common : CommonFacetCreateParams) :
    ∀ q ∈ (FacetSetParamsGenerator.generate_default_source_bundle_facet_params
      common).facets_params, q.isSourceBundle = true := by
  intro q hq
  simp [FacetSetParamsGenerator.generate_default_source_bundle_facet_params] at hq
  obtain ⟨t, _, hq⟩ := hq
  rw [← hq]
  rfl

/-- Every facet param of the default API-bundle plan is an API-bundle
param. -/
theorem default_api_plan_all_api (common : CommonFacetCreateParams) :
    ∀ q ∈ (FacetSetParamsGenerator.generate_default_api_bundle
      common).facets_params, q.isAPIBundle = true := by
  intro q hq
  simp [FacetSetParamsGenerator.generate_default_api_bundle] at hq
  obtain ⟨t, _, hq⟩ := hq
  rw [← hq]
  rfl

/-- The whole pipeline trace is phase-staged: setup, then facet file
writes, then the commit barrier, then API calls. -/
theorem staged_projectInitialize (w : World) (params : ProjectCreateParams) :
    ∀ fs, Staged ((( LocalProjectService.initialize w params)) fs).trace 0 3 := by
  unfold LocalProjectService.initialize
  refine staged_bind (staged_repoInitialize w params.repo_params) ?_
    (Nat.le_refl 0) (Nat.zero_le 3)
  intro repo
  refine staged_bind (staged_sourceInitialize w params.source_params repo) ?_
    (Nat.le_refl 0) (Nat.zero_le 3)
  intro src
  refine staged_bind (staged_ecosystemInitialize w params.ecosystem_params src) ?_
    (Nat.le_refl 0) (Nat.zero_le 3)
  intro eco
  refine staged_bind
    (fun fs => staged_mono
      (staged_initializeAllList_sb w _
        (default_source_plan_all_sb
          { project_name := params.name, source := src, repo := repo, ecosystem := eco }) fs)
      (Nat.zero_le 1) (Nat.le_refl 1))
    ?_ (Nat.zero_le 1) (by decide)
  intro sfacets
  refine staged_bind
    (fun fs => staged_mono
      (staged_commitAndPush w src "Initialized project" fs) (by decide) (Nat.le_refl 2))
    ?_ (by decide) (by decide)
  intro u
  refine staged_bind
    (fun fs => staged_mono
      (staged_initializeAllList_api w _
        (default_api_plan_all_api
          { project_name := params.name, source := src, repo := repo, ecosystem := eco }) fs)
      (by decide) (Nat.le_refl 3))
    ?_ (by decide) (Nat.le_refl 3)
  intro afacets
  exact staged_mPure _ 3 3

/-- Length of the concatenated default plan. -/
theorem generate_default_length (common : CommonFacetCreateParams) :
    (FacetSetParamsGenerator.generate_default common).facets_params.length = 12 := rfl

/-- A source-bundle param of the concatenated default plan sits among the
first ten positions. -/
theorem generate_default_sb_position (common : CommonFacetCreateParams)
    (i : Nat) (hi : i < (FacetSetParamsGenerator.generate_default common).facets_params.length)
    (hsb : ((FacetSetParamsGenerator.generate_default common).facets_params[i]).isSourceBundle
      = true) : i < 10 := by
  by_contra hge
  push_neg at hge
  have h12 : i < 12 := by
    rw [generate_default_length] at hi
    exact hi
  interval_cases i <;>
    simp [FacetSetParamsGenerator.generate_default,
      FacetSetParamsGenerator.generate_default_source_bundle_facet_params,
      FacetSetParamsGenerator.generate_default_api_bundle,
      defaultSourceBundleFacetTypes, defaultApiBundleFacetTypes,
      FacetCreateParams.isSourceBundle] at hsb

/-- An API-bundle param of the concatenated default plan sits at position
ten or later. -/
theorem generate_default_api_position (common : CommonFacetCreateParams)
    (j : Nat) (hj : j < (FacetSetParamsGenerator.generate_default common).facets_params.length)
    (hapi : ((FacetSetParamsGenerator.generate_default common).facets_params[j]).isAPIBundle
      = true) : 10 ≤ j := by
  by_contra hlt
  push_neg at hlt
  interval_cases j <;>
    simp [FacetSetParamsGenerator.generate_default,
      FacetSetParamsGenerator.generate_default_source_bundle_facet_params,
      FacetSetParamsGenerator.generate_default_api_bundle,
      defaultSourceBundleFacetTypes, defaultApiBundleFacetTypes,
      FacetCreateParams.isAPIBundle] at hapi

/-- C2: (a) in the concatenated default plan (the default source-bundle
params followed by the default API-bundle params, as built by
`generate_default` and executed by the orchestrator) every source-bundle
facet param appears at an earlier position than every API-bundle facet
param; (b) every pipeline run's event trace is phase-ordered — all
source-bundle facet file operations precede the commit-and-push barrier,
which precedes every API-bundle forge call. -/
theorem c2_default_plan_and_phase_ordering :
    (∀ (common : CommonFacetCreateParams) (i j : Nat)
        (hi : i < (FacetSetParamsGenerator.generate_default common).facets_params.length)
        (hj : j < (FacetSetParamsGenerator.generate_default common).facets_params.length),
        ((FacetSetParamsGenerator.generate_default common).facets_params[i]).isSourceBundle
          = true →
        ((FacetSetParamsGenerator.generate_default common).facets_params[j]).isAPIBundle
          = true →
        i < j)
    ∧ (∀ (w : World) (params : ProjectCreateParams) (fs : FS),
        ((( LocalProjectService.initialize w params)) fs).trace.Pairwise
          (fun a b => a.phase ≤ b.phase)) := by
  constructor
  · intro common i j hi hj hsb hapi
    have h1 := generate_default_sb_position common i hi hsb
    have h2 := generate_default_api_position common j hj hapi
    omega
  · intro w params fs
    exact (staged_projectInitialize w params fs).1

/-- C2 witness: position 0 of the concrete default plan (a source-bundle
param) precedes position 10 (an API-bundle param), and the scenario 1
pipeline run's trace is phase-ordered. -/
theorem c2_default_plan_and_phase_ordering_witness :
    (0 : Nat) < 10
    ∧ ((( LocalProjectService.initialize testWorld demoProjectParams)) []).trace.Pairwise
        (fun a b => a.phase ≤ b.phase) :=
  ⟨c2_default_plan_and_phase_ordering.1
      { project_name := "demo"
        source := { path := "/tmp/demo" }
        repo := .Github { name := "demo", organization := .User "alice" }
        ecosystem := .Go { name := "demo", host := "github.com/alice" } }
      0 10 (by decide) (by decide) (by decide) (by decide),
    c2_default_plan_and_phase_ordering.2 testWorld demoProjectParams []⟩
